import Mathlib

/-!
Verification development for the auto-n8n MCP server (protocol-translation
gateway exposing the n8n REST API as MCP tool operations).

The definitions below are a shallow embedding of the repository's source:

* `src/utils/validation.ts` / `dist/utils/validation.js` — the zod schema
  subset actually used by the server, embedded as the `Zod` AST with parser
  `zodParse`, plus `validateAndTransform` (both the compiled `dist` variant
  and the TypeScript `src` variant, which differ only in the error prefix),
  `createErrorResponse` and `createSuccessResponse`.
* `src/n8n-client.ts` / `dist/n8n-client.js` — the axios-based client:
  `N8nClient.handleApiError` (the single error-normalization chokepoint),
  the effective timeout computation of the constructor, and `n8nCall`, the
  embedding of the response interceptor that rejects with the normalized
  error.
* `dist/server.js` — the full tool dispatcher (`CallToolRequestSchema`
  handler): the name→handler registry, every tool handler, and the
  try/catch boundary producing a uniform `{content:[{type:"text",text}]}`
  response.
* `src/server.ts` — the local (catalog-backed) tools: `CORE_NODES`,
  `handleNodeTypeInfo`, `handleWorkflowExamplesSearch`, and that file's
  dispatcher.

JavaScript idioms are embedded explicitly: `undefined`/missing object
fields become `Option`, JS truthiness tests on strings/numbers check for
`""`/`0`, template-literal interpolation of `undefined` prints
"undefined", and `Array.prototype.sort` (stable in modern engines) is
embedded as `List.insertionSort` (stable).
-/

/-- A JSON-like runtime value (JS values passed over the MCP boundary). -/
inductive JsonValue where
  | null
  | bool (b : Bool)
  | num (n : Int)
  | str (s : String)
  | arr (items : List JsonValue)
  | obj (fields : List (String × JsonValue))

/-- First-match field lookup in a JS object (keys are unique in practice). -/
def lookupField : List (String × JsonValue) → String → Option JsonValue
  | [], _ => none
  | (k, v) :: rest, key => if k = key then some v else lookupField rest key

/-- Field lookup on a `JsonValue`; non-objects have no fields. -/
def JsonValue.getField : JsonValue → String → Option JsonValue
  | .obj fs, k => lookupField fs k
  | _, _ => none

/-- Embedding of JavaScript `Array.prototype.join(sep)`. -/
def joinWith (sep : String) : List String → String
  | [] => ""
  | [x] => x
  | x :: xs => x ++ sep ++ joinWith sep xs

/-- Embedding of `Array.prototype.every`-style prefix test on char lists. -/
def listHasPrefix : List Char → List Char → Bool
  | [], _ => true
  | _ :: _, [] => false
  | p :: ps, c :: cs => p == c && listHasPrefix ps cs

/-- Substring occurrence on char lists. -/
def listIncludes (sub : List Char) : List Char → Bool
  | [] => listHasPrefix sub []
  | c :: t => listHasPrefix sub (c :: t) || listIncludes sub t

/-- Embedding of JavaScript `String.prototype.includes`. -/
def jsIncludes (s sub : String) : Bool := listIncludes sub.data s.data

/-- Embedding of JavaScript `String.prototype.endsWith`. -/
def jsEndsWith (s suffix : String) : Bool := suffix.data.isSuffixOf s.data

/-- Embedding of JavaScript `String.prototype.toLowerCase` (ASCII case). -/
def jsToLower (s : String) : String := ⟨s.data.map Char.toLower⟩

/-- JS template-literal interpolation of a possibly-`undefined` string. -/
def showOptStr (o : Option String) : String := o.getD "undefined"

/-! ## The zod subset used by `utils/validation` -/

/-- A `.min`/`.max` check on `z.number()`. -/
inductive ZodNumCheck where
  | min (v : Int)
  | max (v : Int)

mutual
/-- The subset of zod schema combinators the server uses.
`zDefault d inner` is `inner.default(d)` (zod's `ZodDefault` wrapper) and
`zOptional inner` is `inner.optional()` — wrapper order mirrors the chain
order in the source, outermost wrapper last in the chain. -/
inductive Zod where
  | zNumber (checks : List ZodNumCheck)
  | zString (minLen : Option (Nat × Option String))
  | zBoolean
  | zEnum (vals : List String) (errMsg : Option String)
  | zAny
  | zRecord
  | zArray (item : Zod) (minLen : Option (Nat × Option String))
  | zOptional (inner : Zod)
  | zDefault (dflt : JsonValue) (inner : Zod)
  | zObject (fields : ZodFields)

/-- The ordered field list of a `z.object({...})` shape. -/
inductive ZodFields where
  | nil
  | cons (key : String) (schema : Zod) (rest : ZodFields)
end

/-- Builds a `ZodFields` from a list literal. -/
def zfields : List (String × Zod) → ZodFields
  | [] => .nil
  | (k, s) :: rest => .cons k s (zfields rest)

/-- One zod issue: a field path and a message. -/
structure ZodIssue where
  path : List String
  message : String
deriving DecidableEq

/-- Prefixes a path segment onto an issue (zod's object/array path threading). -/
def prefixPath (k : String) (i : ZodIssue) : ZodIssue :=
  ⟨k :: i.path, i.message⟩

/-- zod's runtime type name of a value, used in `invalid_type` messages. -/
def jsonTypeName : JsonValue → String
  | .null => "null"
  | .bool _ => "boolean"
  | .num _ => "number"
  | .str _ => "string"
  | .arr _ => "array"
  | .obj _ => "object"

/-- zod's `invalid_type` issue: "Required" when the input is `undefined`. -/
def typeIssue (expected : String) : Option JsonValue → List ZodIssue
  | none => [⟨[], "Required"⟩]
  | some v => [⟨[], "Expected " ++ expected ++ ", received " ++ jsonTypeName v⟩]

/-- The issue (if any) produced by one numeric check. -/
def numCheckIssue (n : Int) : ZodNumCheck → Option ZodIssue
  | .min v =>
    if n < v then some ⟨[], "Number must be greater than or equal to " ++ toString v⟩
    else none
  | .max v =>
    if v < n then some ⟨[], "Number must be less than or equal to " ++ toString v⟩
    else none

/-- zod's default invalid-enum message. -/
def enumIssueMessage (vals : List String) (received : String) : String :=
  "Invalid enum value. Expected " ++ joinWith " | " (vals.map (fun v => "'" ++ v ++ "'")) ++
    ", received '" ++ received ++ "'"

mutual
/-- Embedding of `schema.parse` for the zod subset: `none` input models
JavaScript `undefined`.  All issues are collected (zod reports every
violated constraint, not just the first); `ZodOptional` short-circuits on
`undefined` *without* consulting the wrapped schema — in particular a
`ZodDefault` inside a `ZodOptional` (the `.default(...).optional()` chain
order) is never reached on missing input, so the default is not applied.
The success value `none` models an `undefined` parse result, which object
assembly omits. -/
def zodParse : Zod → Option JsonValue → Except (List ZodIssue) (Option JsonValue)
  | .zOptional _, none => .ok none
  | .zOptional inner, some v => zodParse inner (some v)
  | .zDefault d inner, none => zodParse inner (some d)
  | .zDefault _ inner, some v => zodParse inner (some v)
  | .zNumber _, none => .error (typeIssue "number" none)
  | .zNumber checks, some v =>
    match v with
    | .num n =>
      let iss := checks.filterMap (numCheckIssue n)
      if iss.isEmpty then .ok (some v) else .error iss
    | _ => .error (typeIssue "number" (some v))
  | .zString _, none => .error (typeIssue "string" none)
  | .zString minLen, some v =>
    match v with
    | .str s =>
      match minLen with
      | some (n, msg) =>
        if s.length < n then
          .error [⟨[], msg.getD ("String must contain at least " ++ toString n ++ " character(s)")⟩]
        else .ok (some v)
      | none => .ok (some v)
    | _ => .error (typeIssue "string" (some v))
  | .zBoolean, none => .error (typeIssue "boolean" none)
  | .zBoolean, some v =>
    match v with
    | .bool _ => .ok (some v)
    | _ => .error (typeIssue "boolean" (some v))
  | .zEnum _ _, none => .error (typeIssue "string" none)
  | .zEnum vals errMsg, some v =>
    match v with
    | .str s =>
      if vals.contains s then .ok (some v)
      else .error [⟨[], errMsg.getD (enumIssueMessage vals s)⟩]
    | _ => .error (typeIssue "string" (some v))
  | .zAny, none => .ok none
  | .zAny, some v => .ok (some v)
  | .zRecord, none => .error (typeIssue "object" none)
  | .zRecord, some v =>
    match v with
    | .obj _ => .ok (some v)
    | _ => .error (typeIssue "object" (some v))
  | .zArray _ _, none => .error (typeIssue "array" none)
  | .zArray item minLen, some v =>
    match v with
    | .arr xs =>
      let lenIss : List ZodIssue :=
        match minLen with
        | some (n, msg) =>
          if xs.length < n then
            [⟨[], msg.getD ("Array must contain at least " ++ toString n ++ " element(s)")⟩]
          else []
        | none => []
      let results := xs.enum.map (fun p => (p.1, zodParse item (some p.2)))
      let elemIss := results.flatMap (fun p =>
        match p.2 with
        | .error iss => iss.map (prefixPath (toString p.1))
        | .ok _ => [])
      let outItems := results.map (fun p =>
        match p.2 with
        | .ok (some u) => u
        | _ => JsonValue.null)
      let iss := lenIss ++ elemIss
      if iss.isEmpty then .ok (some (.arr outItems)) else .error iss
    | _ => .error (typeIssue "array" (some v))
  | .zObject _, none => .error (typeIssue "object" none)
  | .zObject flds, some v =>
    match v with
    | .obj input =>
      let (iss, out) := parseZodFields flds input
      if iss.isEmpty then .ok (some (.obj out)) else .error iss
    | _ => .error (typeIssue "object" (some v))

/-- Parses each declared field of a `z.object` shape against the input
object, collecting all issues (path-prefixed) and assembling the output
object from fields whose parse result is defined. -/
def parseZodFields : ZodFields → List (String × JsonValue) → List ZodIssue × List (String × JsonValue)
  | .nil, _ => ([], [])
  | .cons k sch rest, input =>
    let r := zodParse sch (lookupField input k)
    let (restIss, restOut) := parseZodFields rest input
    match r with
    | .error iss => (iss.map (prefixPath k) ++ restIss, restOut)
    | .ok none => (restIss, restOut)
    | .ok (some v) => (restIss, (k, v) :: restOut)
end

/-- zod issue rendering used by both `validateAndTransform` variants:
`` `${e.path.join('.')}: ${e.message}` ``. -/
def formatIssue (i : ZodIssue) : String :=
  joinWith "." i.path ++ ": " ++ i.message

/-- `validateAndTransform` from `dist/utils/validation.js`: parse, and on
failure throw an `Error` whose message joins every issue. -/
def validateAndTransform (schema : Zod) (data : JsonValue) : Except String JsonValue :=
  match zodParse schema (some data) with
  | .ok r => .ok (r.getD JsonValue.null)
  | .error issues => .error ("Validation error: " ++ joinWith ", " (issues.map formatIssue))

/-- `validateAndTransform` from `src/utils/validation.ts` (identical except
for the message prefix `Validation failed:`). -/
def validateAndTransformSrc (schema : Zod) (data : JsonValue) : Except String JsonValue :=
  match zodParse schema (some data) with
  | .ok r => .ok (r.getD JsonValue.null)
  | .error issues => .error ("Validation failed: " ++ joinWith ", " (issues.map formatIssue))

/-! ## Responses (`createErrorResponse` / `createSuccessResponse`) -/

/-- One `{type, text}` content item of an MCP tool result. -/
structure ContentItem where
  type : String
  text : String

/-- The `{content: [...]}` payload every tool invocation resolves to. -/
structure Response where
  content : List ContentItem

/-- `createErrorResponse` (identical in `src` and `dist`):
`❌ Error: <message>` plus optional details. -/
def createErrorResponse (message : String) (details : Option String) : Response :=
  ⟨[⟨"text", "❌ Error: " ++ message ++
      (match details with
       | some d => if d = "" then "" else "\n\nDetails: " ++ d
       | none => "")⟩]⟩

/-- `createSuccessResponse` from `dist/utils/validation.js`:
`✅ <message>` plus optional data block (JS truthiness: empty data string
renders nothing). -/
def createSuccessResponse (message : String) (data : Option String) : Response :=
  ⟨[⟨"text", "✅ " ++ message ++
      (match data with
       | some d => if d = "" then "" else "\n\n" ++ d
       | none => "")⟩]⟩

/-- `createSuccessResponse` from `src/utils/validation.ts` (no ✅ prefix). -/
def createSuccessResponseSrc (message : String) (details : Option String) : Response :=
  ⟨[⟨"text",
      (match details with
       | some d => if d = "" then message else message ++ "\n\n" ++ d
       | none => message)⟩]⟩

/-! ## Schemas from `dist/utils/validation.js` and inline in `dist/server.js` -/

/-- `z.string().min(1, 'Workflow ID is required')`. -/
def workflowIdSchema : Zod := .zString (some (1, some "Workflow ID is required"))

def executionIdSchema : Zod := .zString (some (1, some "Execution ID is required"))

def tagIdSchema : Zod := .zString (some (1, some "Tag ID is required"))

def variableIdSchema : Zod := .zString (some (1, some "Variable ID is required"))

def projectIdSchema : Zod := .zString (some (1, some "Project ID is required"))

def credentialIdSchema : Zod := .zString (some (1, some "Credential ID is required"))

/-- The pagination `limit` chain `z.number().min(1).max(250).default(100).optional()`:
the `ZodOptional` wrapper is outermost, the `ZodDefault` inside it. -/
def limitSchema : Zod :=
  .zOptional (.zDefault (.num 100) (.zNumber [.min 1, .max 250]))

/-- `paginationSchema` from `utils/validation`. -/
def paginationSchema : Zod :=
  .zObject (zfields [("limit", limitSchema), ("cursor", .zOptional (.zString none))])

/-- `workflowListSchema`: filters spread with the pagination shape. -/
def workflowListSchema : Zod :=
  .zObject (zfields
    [("active", .zOptional .zBoolean),
     ("tags", .zOptional (.zString none)),
     ("name", .zOptional (.zString none)),
     ("projectId", .zOptional (.zString none)),
     ("excludePinnedData", .zOptional .zBoolean),
     ("limit", limitSchema),
     ("cursor", .zOptional (.zString none))])

/-- The node-object item schema inside `workflowCreateSchema` (dist). -/
def workflowCreateNodeSchema : Zod :=
  .zObject (zfields
    [("name", .zString none),
     ("type", .zString none),
     ("parameters", .zOptional .zRecord),
     ("position", .zOptional (.zArray (.zNumber []) none)),
     ("credentials", .zOptional .zRecord)])

/-- `workflowCreateSchema` from `dist/utils/validation.js`.  Note: `nodes`
is `z.array(...).optional().default([])` — no minimum length constraint —
and `settings` likewise defaults to `{}` with all sub-fields defaulted. -/
def workflowCreateSchema : Zod :=
  .zObject (zfields
    [("name", .zString (some (1, some "Workflow name is required"))),
     ("nodes", .zDefault (.arr []) (.zOptional (.zArray workflowCreateNodeSchema none))),
     ("connections", .zDefault (.obj []) (.zOptional .zRecord)),
     ("settings", .zDefault (.obj []) (.zOptional (.zObject (zfields
        [("saveExecutionProgress", .zDefault (.bool true) (.zOptional .zBoolean)),
         ("saveManualExecutions", .zDefault (.bool true) (.zOptional .zBoolean)),
         ("saveDataErrorExecution", .zDefault (.str "all") (.zOptional (.zEnum ["all", "none"] none))),
         ("saveDataSuccessExecution", .zDefault (.str "all") (.zOptional (.zEnum ["all", "none"] none))),
         ("executionTimeout", .zOptional (.zNumber [])),
         ("timezone", .zOptional (.zString none))])))),
     ("tags", .zOptional (.zArray (.zString none) none)),
     ("active", .zDefault (.bool false) .zBoolean)])

/-- `executionListSchema`. -/
def executionListSchema : Zod :=
  .zObject (zfields
    [("includeData", .zOptional .zBoolean),
     ("status", .zOptional (.zEnum ["error", "success", "waiting"] none)),
     ("workflowId", .zOptional (.zString none)),
     ("projectId", .zOptional (.zString none)),
     ("limit", limitSchema),
     ("cursor", .zOptional (.zString none))])

def tagCreateSchema : Zod :=
  .zObject (zfields [("name", .zString (some (1, some "Tag name is required")))])

/-- `variableCreateSchema` (dist variant: value also requires min length 1). -/
def variableCreateSchema : Zod :=
  .zObject (zfields
    [("key", .zString (some (1, some "Variable key is required"))),
     ("value", .zString (some (1, some "Variable value is required")))])

def projectCreateSchema : Zod :=
  .zObject (zfields [("name", .zString (some (1, some "Project name is required")))])

def credentialCreateSchema : Zod :=
  .zObject (zfields
    [("name", .zString (some (1, some "Credential name is required"))),
     ("type", .zString (some (1, some "Credential type is required"))),
     ("data", .zRecord)])

def auditGenerateSchema : Zod :=
  .zObject (zfields
    [("additionalOptions", .zOptional (.zObject (zfields
       [("daysAbandonedWorkflow", .zOptional (.zNumber [])),
        ("categories", .zOptional (.zArray
           (.zEnum ["credentials", "database", "nodes", "filesystem", "instance"] none) none))])))])

/-! ## The remote API client (`n8n-client`) -/

/-- The `response` part of an axios error (present iff the server replied). -/
structure AxiosErrorResponse where
  status : Int
  dataMessage : Option String

/-- An axios failure: either an HTTP error response or no response at all
(network failure / timeout). -/
structure AxiosError where
  response : Option AxiosErrorResponse
  message : String

namespace N8nClient

/-- `N8nClient.handleApiError`: the single error-normalization chokepoint.
Returns the message of the `Error` the client rejects with. -/
def handleApiError (error : AxiosError) : String :=
  match error.response with
  | some r =>
    let message :=
      match r.dataMessage with
      | some m => if m = "" then error.message else m
      | none => error.message
    if r.status = 401 then "Authentication failed. Check your API key."
    else if r.status = 403 then "Insufficient permissions for this operation."
    else if r.status = 404 then "Resource not found."
    else if r.status = 429 then "Rate limit exceeded. Please retry later."
    else "API Error (" ++ toString r.status ++ "): " ++ message
  | none => "Network Error: " ++ error.message

/-- The constructor's `timeout: config.timeout || 30000` — JS `||` takes the
default whenever the configured value is falsy (absent or `0`). -/
structure Config where
  baseUrl : String
  apiKey : String
  timeout : Option Int
  retries : Option Int

/-- The per-call timeout the constructor installs on the axios instance. -/
def effectiveTimeout (config : Config) : Int :=
  match config.timeout with
  | some t => if t = 0 then 30000 else t
  | none => 30000

/-- The constructor's `baseURL` — the configured base plus `/api/v1`. -/
def baseURL (config : Config) : String := config.baseUrl ++ "/api/v1"

end N8nClient

/-- The response interceptor: a successful axios exchange passes through,
a failed one rejects with the normalized `handleApiError` message, so no
raw transport error reaches the awaiting caller. -/
def n8nCall {α : Type} (raw : Except AxiosError α) : Except String α :=
  match raw with
  | .ok a => .ok a
  | .error e => .error (N8nClient.handleApiError e)

/-! ## Remote resource representations (pass-through DTOs) -/

structure N8nTag where
  id : Option String
  name : String
  createdAt : Option String

structure N8nNode where
  name : String
  type : String
  position : Option (List Int)
  disabled : Option Bool

structure N8nWorkflowSettings where
  saveExecutionProgress : Option Bool
  saveManualExecutions : Option Bool
  executionTimeout : Option Int
  timezone : Option String

structure N8nWorkflow where
  id : Option String
  name : String
  active : Option Bool
  createdAt : Option String
  updatedAt : Option String
  nodes : Option (List N8nNode)
  connections : Option (List (String × JsonValue))
  settings : Option N8nWorkflowSettings
  tags : Option (List N8nTag)

structure PaginatedResponse (α : Type) where
  data : List α
  nextCursor : Option String

structure RunError where
  message : String

structure RunData where
  main : Option (List (List JsonValue))

structure NodeRun where
  error : Option RunError
  data : Option RunData

structure ExecResultData where
  runData : List (String × List NodeRun)
  error : Option JsonValue

structure ExecData where
  resultData : Option ExecResultData

structure N8nExecution where
  id : Int
  startedAt : String
  stoppedAt : Option String
  workflowId : Int
  status : Option String
  mode : Option String
  workflowData : Option N8nWorkflow
  data : Option ExecData

structure N8nVariable where
  id : Option String
  key : String
  value : String

structure N8nProject where
  id : Option String
  name : String
  type : Option String

structure N8nCredential where
  id : Option String
  name : String
  type : String

structure AuditLocation where
  kind : Option String
  name : Option String
  workflowId : Option String
  workflowName : Option String
  nodeName : Option String
  nodeType : Option String

structure AuditSection where
  title : String
  description : String
  recommendation : String
  location : Option (List AuditLocation)

structure AuditReport where
  risk : Option String
  sections : Option (List AuditSection)

/-- The remote n8n REST API as seen through axios, one field per client
method (the remote platform is an external collaborator; its responses are
trusted verbatim).  `dateLocale`/`dateEpoch` model the JavaScript `Date`
collaborator (`toLocaleString`/`getTime`) used only for display. -/
structure RemoteEnv where
  getWorkflows : JsonValue → Except AxiosError (PaginatedResponse N8nWorkflow)
  getWorkflow : String → Option Bool → Except AxiosError N8nWorkflow
  createWorkflow : JsonValue → Except AxiosError N8nWorkflow
  updateWorkflow : String → JsonValue → Except AxiosError N8nWorkflow
  deleteWorkflow : String → Except AxiosError N8nWorkflow
  activateWorkflow : String → Except AxiosError N8nWorkflow
  deactivateWorkflow : String → Except AxiosError N8nWorkflow
  transferWorkflow : String → String → Except AxiosError Unit
  getWorkflowTags : String → Except AxiosError (List N8nTag)
  updateWorkflowTags : String → List String → Except AxiosError (List N8nTag)
  getExecutions : JsonValue → Except AxiosError (PaginatedResponse N8nExecution)
  getExecution : String → Option Bool → Except AxiosError N8nExecution
  deleteExecution : String → Except AxiosError N8nExecution
  getTags : JsonValue → Except AxiosError (PaginatedResponse N8nTag)
  createTag : String → Except AxiosError N8nTag
  updateTag : String → String → Except AxiosError N8nTag
  deleteTag : String → Except AxiosError N8nTag
  getVariables : JsonValue → Except AxiosError (PaginatedResponse N8nVariable)
  createVariable : String → String → Except AxiosError Unit
  updateVariable : String → String → String → Except AxiosError Unit
  deleteVariable : String → Except AxiosError Unit
  getProjects : JsonValue → Except AxiosError (PaginatedResponse N8nProject)
  createProject : String → Except AxiosError Unit
  updateProject : String → String → Except AxiosError Unit
  deleteProject : String → Except AxiosError Unit
  createCredential : String → String → JsonValue → Except AxiosError N8nCredential
  deleteCredential : String → Except AxiosError N8nCredential
  getCredentialSchema : String → Except AxiosError JsonValue
  transferCredential : String → String → Except AxiosError Unit
  generateAudit : JsonValue → Except AxiosError (List (String × AuditReport))
  dateLocale : String → String
  dateEpoch : String → Int

/-! ## Extraction & rendering helpers shared by the tool handlers -/

/-- Generic first-match association-list lookup (JS object indexing). -/
def lookupStr {α : Type} : List (String × α) → String → Option α
  | [], _ => none
  | (k, v) :: rest, key => if k = key then some v else lookupStr rest key

/-- Reads a zod-validated string field (validation guarantees presence). -/
def jsStrField (v : JsonValue) (k : String) : String :=
  match v.getField k with
  | some (.str s) => s
  | _ => ""

/-- Reads an optional boolean field as the JS value passed on. -/
def jsOptBoolField (v : JsonValue) (k : String) : Option Bool :=
  match v.getField k with
  | some (.bool b) => some b
  | _ => none

/-- Reads a zod-validated string-array field. -/
def jsStrListField (v : JsonValue) (k : String) : List String :=
  match v.getField k with
  | some (.arr xs) => xs.filterMap (fun x => match x with | .str s => some s | _ => none)
  | _ => []

/-- JS truthiness of a possibly-absent string (`undefined` and `""` are falsy). -/
def jsTruthyStr : Option String → Bool
  | some s => !(s == "")
  | none => false

/-- `o ? render(o) : dflt` on a possibly-absent timestamp string. -/
def dateOr (dl : String → String) (o : Option String) (dflt : String) : String :=
  match o with
  | some s => if s = "" then dflt else dl s
  | none => dflt

/-- `` `${tags?.map(t => t.name).join(', ') || dflt}` `` -/
def tagNamesOr (tags : Option (List N8nTag)) (dflt : String) : String :=
  match tags with
  | some ts =>
    let s := joinWith ", " (ts.map (fun t => t.name))
    if s = "" then dflt else s
  | none => dflt

/-- `cond ? 'Yes' : 'No'` on an optional boolean. -/
def yesNo (o : Option Bool) : String := if o.getD false then "Yes" else "No"

/-- The trailing pagination note `result.nextCursor ? '\n\n📄 Next cursor: …' : ''`. -/
def cursorNote (o : Option String) : String :=
  match o with
  | some c => if c = "" then "" else "\n\n📄 Next cursor: " ++ c
  | none => ""

/-- `Math.round((stopMs - startMs) / 1000)` (round half toward +∞). -/
def roundSeconds (d : Int) : Int := Int.fdiv (d + 500) 1000

/-- Replaces (or appends) a field of a JS object, preserving key order. -/
def setFieldIn : List (String × JsonValue) → String → JsonValue → List (String × JsonValue)
  | [], k, nv => [(k, nv)]
  | (k', v') :: rest, k, nv =>
    if k' = k then (k, nv) :: rest else (k', v') :: setFieldIn rest k nv

def setField (v : JsonValue) (k : String) (nv : JsonValue) : JsonValue :=
  match v with
  | .obj fs => .obj (setFieldIn fs k nv)
  | o => o

/-- Drops a field of a JS object (the `const {id, ...rest}` destructuring). -/
def removeField (v : JsonValue) (k : String) : JsonValue :=
  match v with
  | .obj fs => .obj (fs.filter (fun p => !(p.1 == k)))
  | o => o

/-- A plain rendering of `JSON.stringify` (quote-escaping and pretty-print
indentation elided; no claim inspects this string). -/
def jsonStringify : JsonValue → String
  | .null => "null"
  | .bool b => if b then "true" else "false"
  | .num n => toString n
  | .str s => "\"" ++ s ++ "\""
  | .arr xs => "[" ++ joinWith "," (xs.attach.map (fun x => jsonStringify x.1)) ++ "]"
  | .obj fs => "\x7b" ++ joinWith "," (fs.attach.map (fun p => "\"" ++ p.1.1 ++ "\":" ++ jsonStringify p.1.2)) ++ "\x7d"
termination_by v => sizeOf v
decreasing_by
  · have := List.sizeOf_lt_of_mem x.2
    simp at this ⊢
    omega
  · obtain ⟨⟨a, b⟩, hp⟩ := p
    have := List.sizeOf_lt_of_mem hp
    simp [Prod.mk.sizeOf_spec] at this ⊢
    omega

/-! ## Tool handlers from `dist/server.js` -/

/-- One workflow summary block of `handleWorkflowList`. -/
def workflowListLine (dl : String → String) (w : N8nWorkflow) : String :=
  "• **" ++ w.name ++ "** (ID: " ++ showOptStr w.id ++ ")\n" ++
  "  Status: " ++ (if w.active.getD false then "🟢 Active" else "🔴 Inactive") ++ "\n" ++
  "  Nodes: " ++ toString ((w.nodes.getD []).length) ++ "\n" ++
  "  Tags: " ++ tagNamesOr w.tags "None" ++ "\n" ++
  "  Created: " ++ dateOr dl w.createdAt "Unknown"

def handleWorkflowList (args : JsonValue) (env : RemoteEnv) : Except String Response :=
  match validateAndTransform workflowListSchema args with
  | .error e => .error e
  | .ok params =>
    match n8nCall (env.getWorkflows params) with
    | .error e => .error e
    | .ok result =>
      .ok (createSuccessResponse ("Found " ++ toString result.data.length ++ " workflows")
        (some (joinWith "\n\n" (result.data.map (workflowListLine env.dateLocale)) ++
               cursorNote result.nextCursor)))

/-- One node line of `handleWorkflowGet`. -/
def workflowGetNodeLine (n : N8nNode) : String :=
  "  • **" ++ n.name ++ "** (" ++ n.type ++ ")\n" ++
  "    Position: [" ++
    (match n.position with
     | some ps =>
       let s := joinWith ", " (ps.map toString)
       if s = "" then "Not set" else s
     | none => "Not set") ++ "]\n" ++
  "    Disabled: " ++ (if n.disabled.getD false then "Yes" else "No")

/-- The labeled field dump of `handleWorkflowGet`. -/
def workflowGetInfo (dl : String → String) (w : N8nWorkflow) : String :=
  let nodesList :=
    match w.nodes with
    | some ns =>
      let s := joinWith "\n" (ns.map workflowGetNodeLine)
      if s = "" then "No nodes" else s
    | none => "No nodes"
  "**Workflow: " ++ w.name ++ "**\n" ++
  "ID: " ++ showOptStr w.id ++ "\n" ++
  "Status: " ++ (if w.active.getD false then "🟢 Active" else "🔴 Inactive") ++ "\n" ++
  "Nodes: " ++ toString ((w.nodes.getD []).length) ++ "\n" ++
  "Connections: " ++ toString ((w.connections.getD []).length) ++ "\n" ++
  "Tags: " ++ tagNamesOr w.tags "None" ++ "\n" ++
  "Created: " ++ dateOr dl w.createdAt "Unknown" ++ "\n" ++
  "Updated: " ++ dateOr dl w.updatedAt "Unknown" ++ "\n\n" ++
  "**Nodes:**\n" ++ nodesList ++ "\n\n" ++
  "**Settings:**\n" ++
  "  • Save execution progress: " ++ yesNo (w.settings.bind (fun s => s.saveExecutionProgress)) ++ "\n" ++
  "  • Save manual executions: " ++ yesNo (w.settings.bind (fun s => s.saveManualExecutions)) ++ "\n" ++
  "  • Execution timeout: " ++
    (match w.settings.bind (fun s => s.executionTimeout) with
     | some t => if t = 0 then "Default" else toString t
     | none => "Default") ++ "\n" ++
  "  • Timezone: " ++
    (match w.settings.bind (fun s => s.timezone) with
     | some tz => if tz = "" then "Default" else tz
     | none => "Default")

def workflowGetArgsSchema : Zod :=
  .zObject (zfields [("id", workflowIdSchema), ("excludePinnedData", .zOptional .zBoolean)])

def handleWorkflowGet (args : JsonValue) (env : RemoteEnv) : Except String Response :=
  match validateAndTransform workflowGetArgsSchema args with
  | .error e => .error e
  | .ok params =>
    match n8nCall (env.getWorkflow (jsStrField params "id") (jsOptBoolField params "excludePinnedData")) with
    | .error e => .error e
    | .ok workflow =>
      .ok (createSuccessResponse "Workflow details retrieved"
        (some (workflowGetInfo env.dateLocale workflow)))

/-- `{...workflowData, tags: workflowData.tags?.map(name => ({name}))}`:
tag names become `{name}` objects; an absent `tags` stays absent (an
`undefined`-valued property is dropped at JSON serialization). -/
def processWorkflowCreateData (wd : JsonValue) : JsonValue :=
  match wd.getField "tags" with
  | some (.arr ts) => setField wd "tags" (.arr (ts.map (fun t => .obj [("name", t)])))
  | _ => wd

def handleWorkflowCreate (args : JsonValue) (env : RemoteEnv) : Except String Response :=
  match validateAndTransform workflowCreateSchema args with
  | .error e => .error e
  | .ok workflowData =>
    match n8nCall (env.createWorkflow (processWorkflowCreateData workflowData)) with
    | .error e => .error e
    | .ok workflow =>
      .ok (createSuccessResponse ("Workflow \"" ++ workflow.name ++ "\" created successfully")
        (some ("ID: " ++ showOptStr workflow.id ++ "\nStatus: " ++
               (if workflow.active.getD false then "Active" else "Inactive") ++
               "\nNodes: " ++ toString ((workflow.nodes.getD []).length))))

def workflowUpdateArgsSchema : Zod :=
  .zObject (zfields
    [("id", workflowIdSchema),
     ("name", .zOptional (.zString none)),
     ("nodes", .zOptional (.zArray .zAny none)),
     ("connections", .zOptional .zRecord),
     ("settings", .zOptional .zRecord),
     ("active", .zOptional .zBoolean)])

def handleWorkflowUpdate (args : JsonValue) (env : RemoteEnv) : Except String Response :=
  match validateAndTransform workflowUpdateArgsSchema args with
  | .error e => .error e
  | .ok params =>
    match n8nCall (env.updateWorkflow (jsStrField params "id") (removeField params "id")) with
    | .error e => .error e
    | .ok workflow =>
      .ok (createSuccessResponse ("Workflow \"" ++ workflow.name ++ "\" updated successfully")
        (some ("ID: " ++ showOptStr workflow.id ++ "\nStatus: " ++
               (if workflow.active.getD false then "Active" else "Inactive"))))

def idOnlySchema (idSchema : Zod) : Zod := .zObject (zfields [("id", idSchema)])

def handleWorkflowDelete (args : JsonValue) (env : RemoteEnv) : Except String Response :=
  match validateAndTransform (idOnlySchema workflowIdSchema) args with
  | .error e => .error e
  | .ok params =>
    match n8nCall (env.deleteWorkflow (jsStrField params "id")) with
    | .error e => .error e
    | .ok workflow =>
      .ok (createSuccessResponse ("Workflow \"" ++ workflow.name ++ "\" deleted successfully") none)

def handleWorkflowActivate (args : JsonValue) (env : RemoteEnv) : Except String Response :=
  match validateAndTransform (idOnlySchema workflowIdSchema) args with
  | .error e => .error e
  | .ok params =>
    match n8nCall (env.activateWorkflow (jsStrField params "id")) with
    | .error e => .error e
    | .ok workflow =>
      .ok (createSuccessResponse ("Workflow \"" ++ workflow.name ++ "\" activated successfully") none)

def handleWorkflowDeactivate (args : JsonValue) (env : RemoteEnv) : Except String Response :=
  match validateAndTransform (idOnlySchema workflowIdSchema) args with
  | .error e => .error e
  | .ok params =>
    match n8nCall (env.deactivateWorkflow (jsStrField params "id")) with
    | .error e => .error e
    | .ok workflow =>
      .ok (createSuccessResponse ("Workflow \"" ++ workflow.name ++ "\" deactivated successfully") none)

def workflowTransferArgsSchema : Zod :=
  .zObject (zfields [("id", workflowIdSchema), ("destinationProjectId", .zString none)])

def handleWorkflowTransfer (args : JsonValue) (env : RemoteEnv) : Except String Response :=
  match validateAndTransform workflowTransferArgsSchema args with
  | .error e => .error e
  | .ok params =>
    match n8nCall (env.transferWorkflow (jsStrField params "id") (jsStrField params "destinationProjectId")) with
    | .error e => .error e
    | .ok _ =>
      .ok (createSuccessResponse
        ("Workflow transferred to project " ++ jsStrField params "destinationProjectId" ++ " successfully") none)

/-- `exec.status === 'success' ? '✅' : exec.status === 'error' ? '❌' : '⏳'`. -/
def statusBadge (status : Option String) : String :=
  if status == some "success" then "✅" else if status == some "error" then "❌" else "⏳"

/-- `` `${exec.workflowData?.name || exec.workflowId}` `` -/
def executionWorkflowName (exec : N8nExecution) : String :=
  match exec.workflowData with
  | some wd => if wd.name = "" then toString exec.workflowId else wd.name
  | none => toString exec.workflowId

/-- One execution summary block of `handleExecutionList`. -/
def executionListLine (dl : String → String) (de : String → Int) (exec : N8nExecution) : String :=
  let duration : Option Int :=
    match exec.stoppedAt with
    | some st =>
      if st = "" ∨ exec.startedAt = "" then none
      else some (roundSeconds (de st - de exec.startedAt))
    | none => none
  "• **Execution " ++ toString exec.id ++ "**\n" ++
  "  Workflow: " ++ executionWorkflowName exec ++ "\n" ++
  "  Status: " ++ statusBadge exec.status ++ " " ++ showOptStr exec.status ++ "\n" ++
  "  Started: " ++ dl exec.startedAt ++ "\n" ++
  "  " ++ (match exec.stoppedAt with
           | some st => if st = "" then "Still running" else "Finished: " ++ dl st
           | none => "Still running") ++ "\n" ++
  "  Duration: " ++ (match duration with
                     | some d => if d = 0 then "N/A" else toString d ++ "s"
                     | none => "N/A")

def handleExecutionList (args : JsonValue) (env : RemoteEnv) : Except String Response :=
  match validateAndTransform executionListSchema args with
  | .error e => .error e
  | .ok params =>
    match n8nCall (env.getExecutions params) with
    | .error e => .error e
    | .ok result =>
      .ok (createSuccessResponse ("Found " ++ toString result.data.length ++ " executions")
        (some (joinWith "\n\n" (result.data.map (executionListLine env.dateLocale env.dateEpoch)) ++
               cursorNote result.nextCursor)))

/-- One run line of the per-node execution breakdown. -/
def nodeRunLine (p : Nat × NodeRun) : String :=
  match p.2.error with
  | some err => "    Run " ++ toString (p.1 + 1) ++ ": ❌ ERROR - " ++ err.message ++ "\n"
  | none =>
    "    Run " ++ toString (p.1 + 1) ++ ": ✅ SUCCESS - " ++
      toString ((((p.2.data.bind (fun d => d.main)).bind List.head?).map List.length).getD 0) ++
      " items\n"

/-- One node entry of the per-node execution breakdown. -/
def nodeExecLine (p : String × List NodeRun) : String :=
  "  • **" ++ p.1 ++ "**: " ++ toString p.2.length ++ " run(s)\n" ++
  String.join (p.2.enum.map nodeRunLine)

/-- The detail text of `handleExecutionGet`. -/
def executionDetailText (dl : String → String) (de : String → Int) (exec : N8nExecution) : String :=
  let nodeExecutions := ((exec.data.bind (fun d => d.resultData)).map (fun r => r.runData)).getD []
  let nodeCount := nodeExecutions.length
  let hasErrors := exec.status == some "error"
  let base :=
    "**Execution " ++ toString exec.id ++ "**\n" ++
    "Workflow: " ++ executionWorkflowName exec ++ "\n" ++
    "Status: " ++ statusBadge exec.status ++ " " ++ showOptStr exec.status ++ "\n" ++
    "Mode: " ++ showOptStr exec.mode ++ "\n" ++
    "Started: " ++ dl exec.startedAt ++ "\n"
  let withFinish :=
    match exec.stoppedAt with
    | some st =>
      if st = "" then base
      else
        base ++ "Finished: " ++ dl st ++ "\n" ++
          "Duration: " ++ toString (roundSeconds (de st - de exec.startedAt)) ++ "s\n"
    | none => base
  let withCount := withFinish ++ "Nodes executed: " ++ toString nodeCount ++ "\n\n"
  let withError :=
    if hasErrors then
      match (exec.data.bind (fun d => d.resultData)).bind (fun r => r.error) with
      | some err =>
        withCount ++ "**❌ Error Details:**\n```\n" ++ jsonStringify err ++ "\n```\n\n"
      | none => withCount
    else withCount
  if nodeCount > 0 then
    withError ++ "**Node Execution Summary:**\n" ++ String.join (nodeExecutions.map nodeExecLine)
  else withError

def executionGetArgsSchema : Zod :=
  .zObject (zfields [("id", executionIdSchema), ("includeData", .zOptional .zBoolean)])

def handleExecutionGet (args : JsonValue) (env : RemoteEnv) : Except String Response :=
  match validateAndTransform executionGetArgsSchema args with
  | .error e => .error e
  | .ok params =>
    match n8nCall (env.getExecution (jsStrField params "id") (jsOptBoolField params "includeData")) with
    | .error e => .error e
    | .ok execution =>
      .ok (createSuccessResponse "Execution details retrieved"
        (some (executionDetailText env.dateLocale env.dateEpoch execution)))

def handleExecutionDelete (args : JsonValue) (env : RemoteEnv) : Except String Response :=
  match validateAndTransform (idOnlySchema executionIdSchema) args with
  | .error e => .error e
  | .ok params =>
    match n8nCall (env.deleteExecution (jsStrField params "id")) with
    | .error e => .error e
    | .ok execution =>
      .ok (createSuccessResponse ("Execution " ++ toString execution.id ++ " deleted successfully") none)

/-- The inline `z.object({limit, cursor})` pagination schema used by the
tag/variable/project list handlers. -/
def inlinePaginationSchema : Zod :=
  .zObject (zfields [("limit", limitSchema), ("cursor", .zOptional (.zString none))])

def tagListLine (dl : String → String) (tag : N8nTag) : String :=
  "• **" ++ tag.name ++ "** (ID: " ++ showOptStr tag.id ++ ")\n" ++
  "  Created: " ++ dateOr dl tag.createdAt "Unknown"

def handleTagList (args : JsonValue) (env : RemoteEnv) : Except String Response :=
  match validateAndTransform inlinePaginationSchema args with
  | .error e => .error e
  | .ok params =>
    match n8nCall (env.getTags params) with
    | .error e => .error e
    | .ok result =>
      .ok (createSuccessResponse ("Found " ++ toString result.data.length ++ " tags")
        (some (joinWith "\n" (result.data.map (tagListLine env.dateLocale)) ++
               cursorNote result.nextCursor)))

def handleTagCreate (args : JsonValue) (env : RemoteEnv) : Except String Response :=
  match validateAndTransform tagCreateSchema args with
  | .error e => .error e
  | .ok params =>
    match n8nCall (env.createTag (jsStrField params "name")) with
    | .error e => .error e
    | .ok tag =>
      .ok (createSuccessResponse ("Tag \"" ++ tag.name ++ "\" created successfully")
        (some ("ID: " ++ showOptStr tag.id)))

def tagUpdateArgsSchema : Zod :=
  .zObject (zfields [("id", tagIdSchema), ("name", .zString none)])

def handleTagUpdate (args : JsonValue) (env : RemoteEnv) : Except String Response :=
  match validateAndTransform tagUpdateArgsSchema args with
  | .error e => .error e
  | .ok params =>
    match n8nCall (env.updateTag (jsStrField params "id") (jsStrField params "name")) with
    | .error e => .error e
    | .ok tag =>
      .ok (createSuccessResponse ("Tag updated to \"" ++ tag.name ++ "\" successfully") none)

def handleTagDelete (args : JsonValue) (env : RemoteEnv) : Except String Response :=
  match validateAndTransform (idOnlySchema tagIdSchema) args with
  | .error e => .error e
  | .ok params =>
    match n8nCall (env.deleteTag (jsStrField params "id")) with
    | .error e => .error e
    | .ok tag =>
      .ok (createSuccessResponse ("Tag \"" ++ tag.name ++ "\" deleted successfully") none)

def handleWorkflowTagsGet (args : JsonValue) (env : RemoteEnv) : Except String Response :=
  match validateAndTransform (idOnlySchema workflowIdSchema) args with
  | .error e => .error e
  | .ok params =>
    match n8nCall (env.getWorkflowTags (jsStrField params "id")) with
    | .error e => .error e
    | .ok tags =>
      let tagList :=
        let s := joinWith "\n" (tags.map (fun tag => "• " ++ tag.name ++ " (ID: " ++ showOptStr tag.id ++ ")"))
        if s = "" then "No tags assigned" else s
      .ok (createSuccessResponse "Workflow tags retrieved" (some tagList))

def workflowTagsUpdateArgsSchema : Zod :=
  .zObject (zfields [("id", workflowIdSchema), ("tagIds", .zArray (.zString none) none)])

def handleWorkflowTagsUpdate (args : JsonValue) (env : RemoteEnv) : Except String Response :=
  match validateAndTransform workflowTagsUpdateArgsSchema args with
  | .error e => .error e
  | .ok params =>
    match n8nCall (env.updateWorkflowTags (jsStrField params "id") (jsStrListField params "tagIds")) with
    | .error e => .error e
    | .ok tags =>
      let tagList :=
        let s := joinWith ", " (tags.map (fun t => t.name))
        if s = "" then "No tags" else s
      .ok (createSuccessResponse "Workflow tags updated successfully" (some ("Tags: " ++ tagList)))

def variableListLine (v : N8nVariable) : String :=
  "• **" ++ v.key ++ "** (ID: " ++ showOptStr v.id ++ ")\n" ++
  "  Value: " ++ (if v.value.length > 50 then v.value.take 50 ++ "..." else v.value)

def handleVariableList (args : JsonValue) (env : RemoteEnv) : Except String Response :=
  match validateAndTransform inlinePaginationSchema args with
  | .error e => .error e
  | .ok params =>
    match n8nCall (env.getVariables params) with
    | .error e => .error e
    | .ok result =>
      .ok (createSuccessResponse ("Found " ++ toString result.data.length ++ " variables")
        (some (joinWith "\n" (result.data.map variableListLine) ++ cursorNote result.nextCursor)))

def handleVariableCreate (args : JsonValue) (env : RemoteEnv) : Except String Response :=
  match validateAndTransform variableCreateSchema args with
  | .error e => .error e
  | .ok params =>
    match n8nCall (env.createVariable (jsStrField params "key") (jsStrField params "value")) with
    | .error e => .error e
    | .ok _ =>
      .ok (createSuccessResponse ("Variable \"" ++ jsStrField params "key" ++ "\" created successfully") none)

def variableUpdateArgsSchema : Zod :=
  .zObject (zfields
    [("id", variableIdSchema), ("key", .zString none), ("value", .zString none)])

def handleVariableUpdate (args : JsonValue) (env : RemoteEnv) : Except String Response :=
  match validateAndTransform variableUpdateArgsSchema args with
  | .error e => .error e
  | .ok params =>
    match n8nCall (env.updateVariable (jsStrField params "id") (jsStrField params "key") (jsStrField params "value")) with
    | .error e => .error e
    | .ok _ =>
      .ok (createSuccessResponse ("Variable \"" ++ jsStrField params "key" ++ "\" updated successfully") none)

def handleVariableDelete (args : JsonValue) (env : RemoteEnv) : Except String Response :=
  match validateAndTransform (idOnlySchema variableIdSchema) args with
  | .error e => .error e
  | .ok params =>
    match n8nCall (env.deleteVariable (jsStrField params "id")) with
    | .error e => .error e
    | .ok _ => .ok (createSuccessResponse "Variable deleted successfully" none)

def projectListLine (project : N8nProject) : String :=
  "• **" ++ project.name ++ "** (ID: " ++ showOptStr project.id ++ ")\n" ++
  "  Type: " ++ (match project.type with
                 | some t => if t = "" then "Standard" else t
                 | none => "Standard")

def handleProjectList (args : JsonValue) (env : RemoteEnv) : Except String Response :=
  match validateAndTransform inlinePaginationSchema args with
  | .error e => .error e
  | .ok params =>
    match n8nCall (env.getProjects params) with
    | .error e => .error e
    | .ok result =>
      .ok (createSuccessResponse ("Found " ++ toString result.data.length ++ " projects")
        (some (joinWith "\n" (result.data.map projectListLine) ++ cursorNote result.nextCursor)))

def handleProjectCreate (args : JsonValue) (env : RemoteEnv) : Except String Response :=
  match validateAndTransform projectCreateSchema args with
  | .error e => .error e
  | .ok params =>
    match n8nCall (env.createProject (jsStrField params "name")) with
    | .error e => .error e
    | .ok _ =>
      .ok (createSuccessResponse ("Project \"" ++ jsStrField params "name" ++ "\" created successfully") none)

def projectUpdateArgsSchema : Zod :=
  .zObject (zfields [("id", projectIdSchema), ("name", .zString none)])

def handleProjectUpdate (args : JsonValue) (env : RemoteEnv) : Except String Response :=
  match validateAndTransform projectUpdateArgsSchema args with
  | .error e => .error e
  | .ok params =>
    match n8nCall (env.updateProject (jsStrField params "id") (jsStrField params "name")) with
    | .error e => .error e
    | .ok _ =>
      .ok (createSuccessResponse ("Project updated to \"" ++ jsStrField params "name" ++ "\" successfully") none)

def handleProjectDelete (args : JsonValue) (env : RemoteEnv) : Except String Response :=
  match validateAndTransform (idOnlySchema projectIdSchema) args with
  | .error e => .error e
  | .ok params =>
    match n8nCall (env.deleteProject (jsStrField params "id")) with
    | .error e => .error e
    | .ok _ => .ok (createSuccessResponse "Project deleted successfully" none)

def handleCredentialCreate (args : JsonValue) (env : RemoteEnv) : Except String Response :=
  match validateAndTransform credentialCreateSchema args with
  | .error e => .error e
  | .ok params =>
    match n8nCall (env.createCredential (jsStrField params "name") (jsStrField params "type")
        ((params.getField "data").getD .null)) with
    | .error e => .error e
    | .ok credential =>
      .ok (createSuccessResponse ("Credential \"" ++ credential.name ++ "\" created successfully")
        (some ("ID: " ++ showOptStr credential.id ++ "\nType: " ++ credential.type)))

def handleCredentialDelete (args : JsonValue) (env : RemoteEnv) : Except String Response :=
  match validateAndTransform (idOnlySchema credentialIdSchema) args with
  | .error e => .error e
  | .ok params =>
    match n8nCall (env.deleteCredential (jsStrField params "id")) with
    | .error e => .error e
    | .ok credential =>
      .ok (createSuccessResponse ("Credential \"" ++ credential.name ++ "\" deleted successfully") none)

def credentialSchemaGetArgsSchema : Zod :=
  .zObject (zfields [("credentialTypeName", .zString none)])

def handleCredentialSchemaGet (args : JsonValue) (env : RemoteEnv) : Except String Response :=
  match validateAndTransform credentialSchemaGetArgsSchema args with
  | .error e => .error e
  | .ok params =>
    match n8nCall (env.getCredentialSchema (jsStrField params "credentialTypeName")) with
    | .error e => .error e
    | .ok schema =>
      .ok (createSuccessResponse
        ("Schema for credential type \"" ++ jsStrField params "credentialTypeName" ++ "\"")
        (some ("```json\n" ++ jsonStringify schema ++ "\n```")))

def credentialTransferArgsSchema : Zod :=
  .zObject (zfields [("id", credentialIdSchema), ("destinationProjectId", .zString none)])

def handleCredentialTransfer (args : JsonValue) (env : RemoteEnv) : Except String Response :=
  match validateAndTransform credentialTransferArgsSchema args with
  | .error e => .error e
  | .ok params =>
    match n8nCall (env.transferCredential (jsStrField params "id") (jsStrField params "destinationProjectId")) with
    | .error e => .error e
    | .ok _ =>
      .ok (createSuccessResponse
        ("Credential transferred to project " ++ jsStrField params "destinationProjectId" ++ " successfully") none)

def renderAuditLocation (loc : AuditLocation) : String :=
  if jsTruthyStr loc.workflowName then
    "    - Workflow: " ++ loc.workflowName.getD "" ++ " (" ++ showOptStr loc.workflowId ++ ")\n" ++
    (if jsTruthyStr loc.nodeName then
       "      Node: " ++ loc.nodeName.getD "" ++ " (" ++ showOptStr loc.nodeType ++ ")\n"
     else "")
  else if jsTruthyStr loc.name then
    "    - " ++ showOptStr loc.kind ++ ": " ++ loc.name.getD "" ++ "\n"
  else ""

def renderAuditSection (s : AuditSection) : String :=
  "• **" ++ s.title ++ "**\n" ++
  "  " ++ s.description ++ "\n" ++
  "  💡 Recommendation: " ++ s.recommendation ++ "\n" ++
  (match s.location with
   | some locs =>
     if locs.length > 0 then "  📍 Locations:\n" ++ String.join (locs.map renderAuditLocation)
     else ""
   | none => "") ++ "\n"

def renderAuditReport (p : String × AuditReport) : String :=
  "**" ++ p.1 ++ "**\n" ++
  "Risk Level: " ++ showOptStr p.2.risk ++ "\n\n" ++
  (match p.2.sections with
   | some ss => String.join (ss.map renderAuditSection)
   | none => "") ++ "\n"

def handleAuditGenerate (args : JsonValue) (env : RemoteEnv) : Except String Response :=
  match validateAndTransform auditGenerateSchema args with
  | .error e => .error e
  | .ok options =>
    match n8nCall (env.generateAudit options) with
    | .error e => .error e
    | .ok auditReport =>
      .ok (createSuccessResponse "Security audit completed"
        (some ("**🔍 Security Audit Report**\n\n" ++ String.join (auditReport.map renderAuditReport))))

/-! ## The dispatcher of `dist/server.js` -/

/-- The type of a registered tool handler. -/
def ToolHandler := JsonValue → RemoteEnv → Except String Response

/-- The name→handler registry: the cases of the `switch (name)` statement
of the `CallToolRequestSchema` handler, in source order. -/
def handlerRegistry : List (String × ToolHandler) :=
  [("workflow_list", handleWorkflowList),
   ("workflow_get", handleWorkflowGet),
   ("workflow_create", handleWorkflowCreate),
   ("workflow_update", handleWorkflowUpdate),
   ("workflow_delete", handleWorkflowDelete),
   ("workflow_activate", handleWorkflowActivate),
   ("workflow_deactivate", handleWorkflowDeactivate),
   ("workflow_transfer", handleWorkflowTransfer),
   ("execution_list", handleExecutionList),
   ("execution_get", handleExecutionGet),
   ("execution_delete", handleExecutionDelete),
   ("tag_list", handleTagList),
   ("tag_create", handleTagCreate),
   ("tag_update", handleTagUpdate),
   ("tag_delete", handleTagDelete),
   ("workflow_tags_get", handleWorkflowTagsGet),
   ("workflow_tags_update", handleWorkflowTagsUpdate),
   ("variable_list", handleVariableList),
   ("variable_create", handleVariableCreate),
   ("variable_update", handleVariableUpdate),
   ("variable_delete", handleVariableDelete),
   ("project_list", handleProjectList),
   ("project_create", handleProjectCreate),
   ("project_update", handleProjectUpdate),
   ("project_delete", handleProjectDelete),
   ("credential_create", handleCredentialCreate),
   ("credential_delete", handleCredentialDelete),
   ("credential_schema_get", handleCredentialSchemaGet),
   ("credential_transfer", handleCredentialTransfer),
   ("audit_generate", handleAuditGenerate)]

/-- The registered tool names of the compiled server. -/
def distToolNames : List String := handlerRegistry.map Prod.fst

/-- The body of the `try` block: the `switch` either runs the matching
handler (which may throw, i.e. return `.error`) or returns the
unknown-tool error response (the `default:` case `return`s — it does not
throw). -/
def dispatchTool (name : String) (args : JsonValue) (env : RemoteEnv) : Except String Response :=
  match lookupStr handlerRegistry name with
  | some h => h args env
  | none => .ok (createErrorResponse ("Unknown tool: " ++ name) none)

/-- The full `CallToolRequestSchema` handler of `dist/server.js`: the
try/catch boundary converting any thrown error into an error response. -/
def toolCallResponse (name : String) (args : JsonValue) (env : RemoteEnv) : Response :=
  match dispatchTool name args env with
  | .ok r => r
  | .error e => createErrorResponse ("Tool execution failed: " ++ e) none

/-! ## The local capability catalog and handlers of `src/server.ts` -/

/-- The per-type metadata of `CORE_NODES` (the `commonParameters` sub-tables
and the worked `exampleUsage` rendering are static data no handler logic
branches on; they are elided from the record and from the found-branch
rendering below). -/
structure NodeInfo where
  category : String
  description : String
  inputsCount : Nat
  outputsCount : Nat
  usageNotes : String

/-- The `CORE_NODES` catalog of `src/server.ts`, in source order
(including the source's `schedulerigger` key spelling). -/
def CORE_NODES : List (String × NodeInfo) :=
  [("n8n-nodes-base.manualTrigger",
    ⟨"Core", "Starts workflow manually from the workflow editor", 0, 1,
     "Best for testing workflows or workflows that should be started manually"⟩),
   ("n8n-nodes-base.webhook",
    ⟨"Core", "Listens for HTTP requests to trigger the workflow", 0, 1,
     "Creates an HTTP endpoint that can trigger your workflow from external systems"⟩),
   ("n8n-nodes-base.schedulerigger",
    ⟨"Core", "Triggers workflow on a schedule (cron-like)", 0, 1,
     "Perfect for automating workflows that need to run at specific times or intervals"⟩),
   ("n8n-nodes-base.code",
    ⟨"Core", "Executes custom JavaScript or Python code", 1, 1,
     "Use for custom data processing, complex logic, or when no built-in node exists"⟩),
   ("n8n-nodes-base.httpRequest",
    ⟨"Core", "Makes HTTP requests to any API", 1, 1,
     "Generic HTTP client for APIs that don't have dedicated n8n nodes"⟩),
   ("n8n-nodes-base.set",
    ⟨"Core", "Modifies data by setting, removing, or keeping specific fields", 1, 1,
     "Essential for data transformation and cleaning in workflows"⟩),
   ("n8n-nodes-base.if",
    ⟨"Core", "Routes data based on conditions (if/else logic)", 1, 2,
     "Creates conditional workflows - items go to \"true\" or \"false\" output based on conditions"⟩),
   ("n8n-nodes-base.switch",
    ⟨"Core", "Routes data to different outputs based on rules", 1, 4,
     "More flexible than IF node - can route to multiple different paths"⟩),
   ("n8n-nodes-base.merge",
    ⟨"Core", "Combines data from multiple inputs", 2, 1,
     "Combines data from different workflow branches or data sources"⟩),
   ("n8n-nodes-base.splitInBatches",
    ⟨"Core", "Processes data in batches to handle large datasets", 1, 1,
     "Prevents memory issues when processing large amounts of data"⟩),
   ("n8n-nodes-base.wait",
    ⟨"Core", "Pauses workflow execution for a specified time", 1, 1,
     "Useful for rate limiting, delays, or waiting for external processes"⟩),
   ("n8n-nodes-base.noOp",
    ⟨"Core", "Does nothing - passes data through unchanged", 1, 1,
     "Useful for debugging, placeholders, or organizing workflow layout"⟩),
   ("n8n-nodes-base.stopAndError",
    ⟨"Core", "Stops workflow execution and optionally throws an error", 1, 0,
     "Use for error handling, validation, or stopping execution under certain conditions"⟩),
   ("n8n-nodes-base.gmail",
    ⟨"Communication", "Interacts with Gmail - send, read, and manage emails", 1, 1,
     "Requires Gmail OAuth2 credentials. Great for email automation"⟩),
   ("n8n-nodes-base.slack",
    ⟨"Communication", "Sends messages and interacts with Slack", 1, 1,
     "Requires Slack app credentials. Perfect for team notifications"⟩),
   ("n8n-nodes-base.googleSheets",
    ⟨"Productivity", "Reads from and writes to Google Sheets", 1, 1,
     "Requires Google credentials. Excellent for data storage and reporting"⟩),
   ("n8n-nodes-base.notion",
    ⟨"Productivity", "Manages Notion databases and pages", 1, 1,
     "Requires Notion integration token. Great for content management"⟩),
   ("n8n-nodes-base.mysql",
    ⟨"Data & Storage", "Executes queries against MySQL databases", 1, 1,
     "Requires MySQL credentials. Use for database operations and data integration"⟩),
   ("n8n-nodes-base.postgres",
    ⟨"Data & Storage", "Executes queries against PostgreSQL databases", 1, 1,
     "Requires PostgreSQL credentials. Powerful for complex data operations"⟩),
   ("n8n-nodes-base.airtable",
    ⟨"Productivity", "Manages Airtable bases and records", 1, 1,
     "Requires Airtable API key. Great for managing structured data"⟩),
   ("n8n-nodes-base.telegram",
    ⟨"Communication", "Sends messages via Telegram bot", 1, 1,
     "Requires Telegram bot token. Perfect for instant notifications"⟩),
   ("n8n-nodes-base.discord",
    ⟨"Communication", "Sends messages to Discord channels", 1, 1,
     "Use Discord webhook for simple messaging or bot token for advanced features"⟩),
   ("n8n-nodes-base.hubspot",
    ⟨"Sales", "Manages HubSpot CRM data - contacts, companies, deals", 1, 1,
     "Requires HubSpot API key. Essential for CRM automation"⟩),
   ("n8n-nodes-base.openai",
    ⟨"AI", "Interacts with OpenAI APIs for AI-powered text and image generation", 1, 1,
     "Requires OpenAI API key. Powerful for AI integration in workflows"⟩)]

/-- The built-in node-type keys (`Object.keys(CORE_NODES)`). -/
def coreNodeKeys : List String := CORE_NODES.map Prod.fst

/-- `NODE_CATEGORIES` of `src/server.ts`. -/
def NODE_CATEGORIES : List (String × String) :=
  [("Core", "Essential nodes for workflow logic and control flow"),
   ("Communication", "Nodes for messaging, email, and team collaboration"),
   ("Productivity", "Nodes for productivity tools and document management"),
   ("Data & Storage", "Nodes for databases and data storage systems"),
   ("Sales", "Nodes for CRM and sales automation"),
   ("AI", "Nodes for artificial intelligence and machine learning services"),
   ("Marketing", "Nodes for marketing automation and analytics"),
   ("Development", "Nodes for development tools and version control"),
   ("Finance", "Nodes for payment processing and financial services")]

/-- Arguments of `node_types_list` after destructuring. -/
structure NodeTypesListArgs where
  category : Option String
  search : Option String

/-- The filtering of `handleNodeTypesList` over `CORE_NODES`. -/
def nodeTypesListFiltered (args : NodeTypesListArgs) : List (String × NodeInfo) :=
  let byCat :=
    match args.category with
    | some c => if c = "" then CORE_NODES else CORE_NODES.filter (fun p => p.2.category == c)
    | none => CORE_NODES
  match args.search with
  | some s =>
    if s = "" then byCat
    else
      let searchLower := jsToLower s
      byCat.filter (fun p =>
        jsIncludes (jsToLower p.1) searchLower || jsIncludes (jsToLower p.2.description) searchLower)
  | none => byCat

/-- A JSON rendering of one filtered catalog entry. -/
def nodeTypesListEntryJson (p : String × NodeInfo) : JsonValue :=
  .obj [("nodeType", .str p.1), ("category", .str p.2.category),
        ("description", .str p.2.description), ("inputsCount", .num p.2.inputsCount),
        ("outputsCount", .num p.2.outputsCount), ("usageNotes", .str p.2.usageNotes)]

def handleNodeTypesList (args : NodeTypesListArgs) : Response :=
  let nodeList := nodeTypesListFiltered args
  ⟨[⟨"text", jsonStringify (.obj
      [("totalNodes", .num nodeList.length),
       ("nodes", .arr (nodeList.map nodeTypesListEntryJson)),
       ("availableCategories", .arr ((NODE_CATEGORIES.map Prod.fst).map JsonValue.str))])⟩]⟩

/-- The fixed "not found" text of `handleNodeTypeInfo`: names the requested
type and enumerates every available built-in node type. -/
def nodeTypeNotFoundText (nodeType : String) : String :=
  "Node type \"" ++ nodeType ++ "\" not found in built-in nodes. \n\nAvailable node types:\n" ++
  joinWith "\n" (coreNodeKeys.map (fun t => "- " ++ t)) ++
  "\n\nYou can also use node_types_list to browse nodes by category."

/-- The found-branch detail text (a `JSON.stringify` dump of the entry plus
an example usage skeleton built from the node type). -/
def nodeTypeInfoFoundText (nodeType : String) (info : NodeInfo) : String :=
  jsonStringify (.obj
    [("nodeType", .str nodeType), ("category", .str info.category),
     ("description", .str info.description), ("inputsCount", .num info.inputsCount),
     ("outputsCount", .num info.outputsCount), ("usageNotes", .str info.usageNotes),
     ("exampleUsage", .obj [("basicStructure", .obj
        [("name", .str ((nodeType.splitOn ".").getLastD "")),
         ("type", .str nodeType),
         ("position", .arr [.num 0, .num 0])])])])

/-- `handleNodeTypeInfo`: an unknown node type yields a plain informational
text response (not an error response) listing every available type. -/
def handleNodeTypeInfo (nodeType : Option String) : Response :=
  let key := showOptStr nodeType
  match lookupStr CORE_NODES key with
  | none => ⟨[⟨"text", nodeTypeNotFoundText key⟩]⟩
  | some info => ⟨[⟨"text", nodeTypeInfoFoundText key info⟩]⟩

def handleNodeCategories : Response :=
  ⟨[⟨"text", jsonStringify (.obj [("categories", .arr (NODE_CATEGORIES.map (fun p =>
      .obj [("name", .str p.1), ("description", .str p.2),
            ("nodeCount", .num ((CORE_NODES.filter (fun q => q.2.category == p.1)).length))])))])⟩]⟩

/-- The use-case keys of the static `examples` table of
`handleWorkflowExamples` (the canned workflow structures themselves are
static data the handler never branches on; their JSON is elided). -/
def workflowExampleKeys : List String :=
  ["simple-webhook", "scheduled-task", "data-processing", "notification", "api-integration"]

def handleWorkflowExamples (useCase : Option String) : Response :=
  ⟨[⟨"text", jsonStringify (.obj
      ([("availableExamples", .arr (workflowExampleKeys.map JsonValue.str))] ++
       (match useCase with
        | some _ => []
        | none => [("examples", JsonValue.obj [])])))⟩]⟩

/-! ## `handleWorkflowExamplesSearch` of `src/server.ts` -/

/-- A node of an example workflow file (the fields the search reads). -/
structure ExNode where
  name : String
  type : String

/-- A parsed example workflow file. -/
structure ExampleWorkflow where
  name : Option String
  nodes : Option (List ExNode)
  connections : Option (List (String × JsonValue))

/-- The examples directory as the handler sees it: whether it exists, and
the `readdirSync` listing.  A file's content is modelled by its parse
outcome: `none` covers both the empty-content `continue` and the
`JSON.parse` failure `catch`/`continue` branches, which skip the file. -/
structure ExamplesFS where
  dirExists : Bool
  files : List (String × Option ExampleWorkflow)

/-- Arguments of `workflow_examples_search` after destructuring with
defaults (`maxExamples = 2`, `includeFullWorkflow = false`). -/
structure SearchArgs where
  nodeTypes : List String
  keywords : List String
  maxExamples : Option Nat
  includeFullWorkflow : Bool

/-- The symmetric containment test of the node-type criterion:
`wnt.includes(nodeType) || nodeType.includes(wnt)`. -/
def nodeTypeMatches (nodeType wnt : String) : Bool :=
  jsIncludes wnt nodeType || jsIncludes nodeType wnt

/-- `nodeTypes.filter(nt => workflowNodeTypes.some(wnt => …))`. -/
def foundNodeTypes (nodeTypes : List String) (workflowNodeTypes : List String) : List String :=
  nodeTypes.filter (fun nt => workflowNodeTypes.any (fun wnt => nodeTypeMatches nt wnt))

/-- One returned example entry. -/
structure WorkflowInfo where
  filename : String
  name : String
  matchReasons : List String
  nodeCount : Nat
  nodeTypes : List String
  fullWorkflow : Option ExampleWorkflow
  relevantNodes : Option (List ExNode)
  relevantConnections : Option (List (String × JsonValue))

/-- Builds the `workflowInfo` record for one matching file. -/
def buildWorkflowInfo (args : SearchArgs) (file : String) (workflow : ExampleWorkflow)
    (matchReasons : List String) : WorkflowInfo :=
  let base : WorkflowInfo :=
    { filename := file
      name := match workflow.name with
              | some n => if n = "" then "Unnamed Workflow" else n
              | none => "Unnamed Workflow"
      matchReasons := matchReasons
      nodeCount := (workflow.nodes.getD []).length
      nodeTypes := ((workflow.nodes.getD []).map (fun n => n.type)).eraseDups
      fullWorkflow := none
      relevantNodes := none
      relevantConnections := none }
  if args.includeFullWorkflow then
    { base with fullWorkflow := some workflow }
  else
    match workflow.nodes with
    | some ns =>
      if args.nodeTypes.length > 0 then
        let relevantNodes := ns.filter (fun n =>
          args.nodeTypes.any (fun nt => jsIncludes n.type nt || jsIncludes nt n.type))
        let withNodes := { base with relevantNodes := some relevantNodes }
        match workflow.connections with
        | some conns =>
          let rc := relevantNodes.filterMap (fun n =>
            (lookupStr conns n.name).map (fun c => (n.name, c)))
          { withNodes with relevantConnections := some rc }
        | none => withNodes
      else base
    | none => base

/-- Processes one example file: `none` when it is skipped (unparseable) or
does not match, otherwise the built `workflowInfo`. -/
def searchOneFile (args : SearchArgs) (file : String × Option ExampleWorkflow) :
    Option WorkflowInfo :=
  match file.2 with
  | none => none
  | some workflow =>
    let nodeTypeReasons : List String :=
      match workflow.nodes with
      | some ns =>
        if args.nodeTypes.length > 0 then
          let found := foundNodeTypes args.nodeTypes (ns.map (fun n => n.type))
          if found.length > 0 then ["Contains nodes: " ++ joinWith ", " found] else []
        else []
      | none => []
    let keywordReasons : List String :=
      if args.keywords.length > 0 then
        let searchText := jsToLower (file.1 ++ " " ++ (workflow.name.getD ""))
        let found := args.keywords.filter (fun kw => jsIncludes searchText (jsToLower kw))
        if found.length > 0 then ["Matches keywords: " ++ joinWith ", " found] else []
      else []
    let generalReasons : List String :=
      if args.nodeTypes.length = 0 ∧ args.keywords.length = 0 then
        ["General workflow example"]
      else []
    let matchReasons := nodeTypeReasons ++ keywordReasons ++ generalReasons
    if matchReasons.isEmpty then none
    else some (buildWorkflowInfo args file.1 workflow matchReasons)

/-- The `readdirSync` post-processing: keep `.json` files, at most 20. -/
def searchFileListing (st : ExamplesFS) : List (String × Option ExampleWorkflow) :=
  ((st.files.filter (fun f => jsEndsWith (jsToLower f.1) ".json")).take 20)

/-- The per-file loop collecting every matching workflow, in listing order. -/
def collectMatches (args : SearchArgs) (files : List (String × Option ExampleWorkflow)) :
    List WorkflowInfo :=
  files.filterMap (searchOneFile args)

/-- `sort((a, b) => b.matchReasons.length - a.matchReasons.length)` — a
stable descending sort by number of match reasons. -/
def sortByRelevance (l : List WorkflowInfo) : List WorkflowInfo :=
  l.insertionSort (fun a b => b.matchReasons.length ≤ a.matchReasons.length)

/-- The structured result of the example search. -/
structure SearchResult where
  totalMatches : Nat
  returnedExamples : Nat
  examples : List WorkflowInfo

/-- The search pipeline of `handleWorkflowExamplesSearch`: list, filter,
match, sort by relevance, truncate to `maxExamples` (destructuring default
2; no further cap is applied). -/
def workflowExamplesSearchResult (st : ExamplesFS) (args : SearchArgs) : SearchResult :=
  let matching := collectMatches args (searchFileListing st)
  let limited := (sortByRelevance matching).take (args.maxExamples.getD 2)
  ⟨matching.length, limited.length, limited⟩

/-- A JSON rendering of one returned example. -/
def workflowInfoJson (w : WorkflowInfo) : JsonValue :=
  .obj ([("filename", .str w.filename), ("name", .str w.name),
         ("matchReasons", .arr (w.matchReasons.map JsonValue.str)),
         ("nodeCount", .num w.nodeCount),
         ("nodeTypes", .arr (w.nodeTypes.map JsonValue.str))] ++
        (match w.fullWorkflow with
         | some wf => [("fullWorkflow", .obj
             [("name", .str (showOptStr wf.name)),
              ("nodes", .arr ((wf.nodes.getD []).map (fun n =>
                 .obj [("name", .str n.name), ("type", .str n.type)]))),
              ("connections", .obj (wf.connections.getD []))])]
         | none => []) ++
        (match w.relevantNodes with
         | some ns => [("relevantNodes", .arr (ns.map (fun n =>
             .obj [("name", .str n.name), ("type", .str n.type)])))]
         | none => []) ++
        (match w.relevantConnections with
         | some cs => [("relevantConnections", .obj cs)]
         | none => []))

def handleWorkflowExamplesSearch (st : ExamplesFS) (args : SearchArgs) : Response :=
  if !st.dirExists then
    ⟨[⟨"text", "No examples directory found. Please create examples/workflows folder with workflow JSON files."⟩]⟩
  else
    let result := workflowExamplesSearchResult st args
    ⟨[⟨"text", jsonStringify (.obj
        [("searchCriteria", .obj
           [("nodeTypes", .arr (args.nodeTypes.map JsonValue.str)),
            ("keywords", .arr (args.keywords.map JsonValue.str)),
            ("maxExamples", .num (args.maxExamples.getD 2)),
            ("includeFullWorkflow", .bool args.includeFullWorkflow)]),
         ("totalMatches", .num result.totalMatches),
         ("returnedExamples", .num result.returnedExamples),
         ("examples", .arr (result.examples.map workflowInfoJson))])⟩]⟩

/-! ## The dispatcher of `src/server.ts` -/

/-- Argument conversions of the `src` dispatcher: destructuring of the raw
argument object into the typed shapes the local handlers read. -/
def searchArgsOfJson (args : JsonValue) : SearchArgs :=
  { nodeTypes := jsStrListField args "nodeTypes"
    keywords := jsStrListField args "keywords"
    maxExamples := match args.getField "maxExamples" with
                   | some (.num n) => some n.toNat
                   | _ => none
    includeFullWorkflow := (jsOptBoolField args "includeFullWorkflow").getD false }

def jsOptStrField (v : JsonValue) (k : String) : Option String :=
  match v.getField k with
  | some (.str s) => some s
  | _ => none

/-- The five tool names the `src/server.ts` switch implements locally. -/
def srcToolNames : List String :=
  ["node_types_list", "node_type_info", "node_categories",
   "workflow_examples", "workflow_examples_search"]

/-- The `try` body of the `src/server.ts` `CallToolRequestSchema` handler:
five local tools; every other name throws (`Tool '<name>' is not
implemented …`). -/
def srcDispatch (name : String) (args : JsonValue) (st : ExamplesFS) : Except String Response :=
  if name = "node_types_list" then
    .ok (handleNodeTypesList ⟨jsOptStrField args "category", jsOptStrField args "search"⟩)
  else if name = "node_type_info" then
    .ok (handleNodeTypeInfo (jsOptStrField args "nodeType"))
  else if name = "node_categories" then
    .ok handleNodeCategories
  else if name = "workflow_examples" then
    .ok (handleWorkflowExamples (jsOptStrField args "useCase"))
  else if name = "workflow_examples_search" then
    .ok (handleWorkflowExamplesSearch st (searchArgsOfJson args))
  else
    .error ("Tool '" ++ name ++ "' is not implemented in this version. Please use the compiled server.")

/-- The full `src/server.ts` handler with its catch boundary. -/
def srcToolCall (name : String) (args : JsonValue) (st : ExamplesFS) : Response :=
  match srcDispatch name args st with
  | .ok r => r
  | .error e => createErrorResponse ("Tool execution failed: " ++ e) none

/-! ## Helper lemmas -/

/-- The uniform response shape: exactly one `{type:"text", text}` item. -/
def isUniformResponse (r : Response) : Prop :=
  ∃ t, r.content = [ContentItem.mk "text" t]

theorem lookupStr_eq_none_of_not_mem {α : Type} {l : List (String × α)} {k : String}
    (h : k ∉ l.map Prod.fst) : lookupStr l k = none := by
  induction l with
  | nil => rfl
  | cons p rest ih =>
    simp only [List.map_cons, List.mem_cons, not_or] at h
    simp only [lookupStr]
    rw [if_neg (fun e => h.1 e.symm)]
    exact ih h.2

theorem lookupStr_some_mem {α : Type} :
    ∀ {l : List (String × α)} {k : String} {v : α},
      lookupStr l k = some v → v ∈ l.map Prod.snd := by
  intro l
  induction l with
  | nil => intro k v h; cases h
  | cons p rest ih =>
    intro k v h
    simp only [lookupStr] at h
    split at h
    · injection h with h'
      exact h' ▸ List.mem_cons_self _ _
    · exact List.mem_cons_of_mem _ (ih h)

theorem joinWith_mem_split (sep : String) :
    ∀ (l : List String), ∀ x ∈ l, ∃ pre post, joinWith sep l = pre ++ (x ++ post) := by
  intro l
  induction l with
  | nil => intro x hx; cases hx
  | cons a t ih =>
    intro x hx
    cases t with
    | nil =>
      rcases List.mem_singleton.mp hx with rfl
      exact ⟨"", "", by simp [joinWith, String.append_empty, String.empty_append]⟩
    | cons b t2 =>
      rcases List.mem_cons.mp hx with rfl | h
      · exact ⟨"", sep ++ joinWith sep (b :: t2),
          by simp [joinWith, String.append_assoc, String.empty_append]⟩
      · obtain ⟨pre, post, hj⟩ := ih x h
        exact ⟨a ++ sep ++ pre, post, by simp [joinWith, hj, String.append_assoc]⟩

/-- A remote environment on which every call fails with a network error
(used to exercise concrete invocations). -/
def testEnv : RemoteEnv :=
  { getWorkflows := fun _ => .error ⟨none, "down"⟩
    getWorkflow := fun _ _ => .error ⟨none, "down"⟩
    createWorkflow := fun _ => .error ⟨none, "down"⟩
    updateWorkflow := fun _ _ => .error ⟨none, "down"⟩
    deleteWorkflow := fun _ => .error ⟨none, "down"⟩
    activateWorkflow := fun _ => .error ⟨none, "down"⟩
    deactivateWorkflow := fun _ => .error ⟨none, "down"⟩
    transferWorkflow := fun _ _ => .error ⟨none, "down"⟩
    getWorkflowTags := fun _ => .error ⟨none, "down"⟩
    updateWorkflowTags := fun _ _ => .error ⟨none, "down"⟩
    getExecutions := fun _ => .error ⟨none, "down"⟩
    getExecution := fun _ _ => .error ⟨none, "down"⟩
    deleteExecution := fun _ => .error ⟨none, "down"⟩
    getTags := fun _ => .error ⟨none, "down"⟩
    createTag := fun _ => .error ⟨none, "down"⟩
    updateTag := fun _ _ => .error ⟨none, "down"⟩
    deleteTag := fun _ => .error ⟨none, "down"⟩
    getVariables := fun _ => .error ⟨none, "down"⟩
    createVariable := fun _ _ => .error ⟨none, "down"⟩
    updateVariable := fun _ _ _ => .error ⟨none, "down"⟩
    deleteVariable := fun _ => .error ⟨none, "down"⟩
    getProjects := fun _ => .error ⟨none, "down"⟩
    createProject := fun _ => .error ⟨none, "down"⟩
    updateProject := fun _ _ => .error ⟨none, "down"⟩
    deleteProject := fun _ => .error ⟨none, "down"⟩
    createCredential := fun _ _ _ => .error ⟨none, "down"⟩
    deleteCredential := fun _ => .error ⟨none, "down"⟩
    getCredentialSchema := fun _ => .error ⟨none, "down"⟩
    transferCredential := fun _ _ => .error ⟨none, "down"⟩
    generateAudit := fun _ => .error ⟨none, "down"⟩
    dateLocale := fun s => s
    dateEpoch := fun _ => 0 }

/-- An empty examples directory state. -/
def testFS : ExamplesFS := ⟨true, []⟩

/-! ## C8 — client timeout default -/

/-- C8: when the Remote API Client is constructed with a falsy timeout
(0 or absent), the per-call timeout is the default 30000 ms; a truthy
configured value is used as given. -/
theorem client_timeout_default (config : N8nClient.Config) :
    ((config.timeout = some 0 ∨ config.timeout = none) →
       N8nClient.effectiveTimeout config = 30000) ∧
    (∀ t, config.timeout = some t → t ≠ 0 → N8nClient.effectiveTimeout config = t) := by
  constructor
  · rintro (h | h) <;> simp [N8nClient.effectiveTimeout, h]
  · intro t h ht
    simp [N8nClient.effectiveTimeout, h, ht]

/-- Witness for C8 at the concrete config with timeout 0. -/
theorem client_timeout_default_witness :
    N8nClient.effectiveTimeout ⟨"http://localhost", "key", some 0, some 3⟩ = 30000 :=
  (client_timeout_default ⟨"http://localhost", "key", some 0, some 3⟩).1 (Or.inl rfl)

/-! ## C2 — total five-way error normalization -/

/-- C2: `handleApiError` maps every axios failure to exactly one of the
five normalized kinds (401/403/404/429/other-status/no-response), and the
interceptor (`n8nCall`) surfaces every failure as exactly such a
normalized message — no raw transport error reaches the caller. -/
theorem handleApiError_total_normalization :
    (∀ e : AxiosError,
      (∃ r, e.response = some r ∧
        ((r.status = 401 ∧
            N8nClient.handleApiError e = "Authentication failed. Check your API key.") ∨
         (r.status = 403 ∧
            N8nClient.handleApiError e = "Insufficient permissions for this operation.") ∨
         (r.status = 404 ∧ N8nClient.handleApiError e = "Resource not found.") ∨
         (r.status = 429 ∧
            N8nClient.handleApiError e = "Rate limit exceeded. Please retry later.") ∨
         (r.status ≠ 401 ∧ r.status ≠ 403 ∧ r.status ≠ 404 ∧ r.status ≠ 429 ∧
            N8nClient.handleApiError e = "API Error (" ++ toString r.status ++ "): " ++
              (match r.dataMessage with
               | some m => if m = "" then e.message else m
               | none => e.message)))) ∨
      (e.response = none ∧ N8nClient.handleApiError e = "Network Error: " ++ e.message)) ∧
    (∀ (α : Type) (raw : Except AxiosError α) (msg : String),
       n8nCall raw = .error msg → ∃ ae, raw = .error ae ∧ msg = N8nClient.handleApiError ae) := by
  constructor
  · intro e
    cases hr : e.response with
    | none => exact Or.inr ⟨rfl, by simp [N8nClient.handleApiError, hr]⟩
    | some r =>
      refine Or.inl ⟨r, rfl, ?_⟩
      by_cases h401 : r.status = 401
      · exact Or.inl ⟨h401, by simp [N8nClient.handleApiError, hr, h401]⟩
      by_cases h403 : r.status = 403
      · exact Or.inr (Or.inl ⟨h403, by simp [N8nClient.handleApiError, hr, h401, h403]⟩)
      by_cases h404 : r.status = 404
      · exact Or.inr (Or.inr (Or.inl ⟨h404,
          by simp [N8nClient.handleApiError, hr, h401, h403, h404]⟩))
      by_cases h429 : r.status = 429
      · exact Or.inr (Or.inr (Or.inr (Or.inl ⟨h429,
          by simp [N8nClient.handleApiError, hr, h401, h403, h404, h429]⟩)))
      · exact Or.inr (Or.inr (Or.inr (Or.inr ⟨h401, h403, h404, h429,
          by simp [N8nClient.handleApiError, hr, h401, h403, h404, h429]⟩)))
  · intro α raw msg h
    cases raw with
    | ok a => exact absurd h (by simp [n8nCall])
    | error ae =>
      refine ⟨ae, rfl, ?_⟩
      simp only [n8nCall] at h
      injection h with h'
      exact h'.symm

/-- Witness for C2: a 404 response surfaced through the interceptor is
exactly the normalized not-found error. -/
theorem handleApiError_total_normalization_witness :
    ∃ ae, (Except.error ⟨some ⟨404, none⟩, "gone"⟩ : Except AxiosError N8nWorkflow) = .error ae ∧
      "Resource not found." = N8nClient.handleApiError ae :=
  handleApiError_total_normalization.2 N8nWorkflow
    (Except.error ⟨some ⟨404, none⟩, "gone"⟩) "Resource not found." rfl

/-! ## C3 — list `limit` bounds enforced, but the default 100 is not applied -/

/-- C3 (code evaluation): `limit = 0` and `limit = 251` are validation
failures (no clamping), but an omitted `limit` parses to an argument
object *without* `limit` — the declared default 100 is never substituted,
because the chain `.default(100).optional()` puts the `ZodOptional`
wrapper outside the `ZodDefault`, and `ZodOptional` short-circuits on
missing input.  The outbound remote call of `handleWorkflowList` therefore
carries no `limit` parameter. -/
theorem workflowList_limit_validation :
    validateAndTransform workflowListSchema (.obj [("limit", .num 0)]) =
      .error "Validation error: limit: Number must be greater than or equal to 1" ∧
    validateAndTransform workflowListSchema (.obj [("limit", .num 251)]) =
      .error "Validation error: limit: Number must be less than or equal to 250" ∧
    validateAndTransform workflowListSchema (.obj []) = .ok (.obj []) ∧
    (JsonValue.obj []).getField "limit" = none ∧
    ∀ env : RemoteEnv, handleWorkflowList (.obj []) env =
      (match n8nCall (env.getWorkflows (.obj [])) with
       | .error e => .error e
       | .ok result =>
         .ok (createSuccessResponse ("Found " ++ toString result.data.length ++ " workflows")
           (some (joinWith "\n\n" (result.data.map (workflowListLine env.dateLocale)) ++
                  cursorNote result.nextCursor)))) :=
  ⟨rfl, rfl, rfl, rfl, fun _ => rfl⟩

/-! ## C4 — empty `nodes` array passes validation and the remote call is made -/

/-- The exact scenario arguments: `{name:"T", nodes:[], connections:{},
settings:{the four required fields}}`. -/
def workflowCreateEmptyNodesArgs : JsonValue :=
  .obj [("name", .str "T"), ("nodes", .arr []), ("connections", .obj []),
        ("settings", .obj
          [("saveExecutionProgress", .bool false),
           ("saveManualExecutions", .bool false),
           ("saveDataErrorExecution", .str "all"),
           ("saveDataSuccessExecution", .str "all")])]

/-- `testEnv` with a distinguishable `createWorkflow` failure, to observe
that the remote create call is reached. -/
def testEnvCreateProbe : RemoteEnv :=
  { testEnv with createWorkflow := fun _ => .error ⟨none, "create reached"⟩ }

/-- C4 (code evaluation): the empty-`nodes` create request passes
validation (zod's `nodes` is optional with no minimum length, contrary to
the advertised `minItems: 1`), so no failure naming `nodes` is produced
and the dispatcher proceeds to the remote `createWorkflow` call — whose
outcome (here a probed network failure) determines the response. -/
theorem workflowCreate_empty_nodes_accepted :
    validateAndTransform workflowCreateSchema workflowCreateEmptyNodesArgs =
      .ok (.obj [("name", .str "T"), ("nodes", .arr []), ("connections", .obj []),
        ("settings", .obj
          [("saveExecutionProgress", .bool false),
           ("saveManualExecutions", .bool false),
           ("saveDataErrorExecution", .str "all"),
           ("saveDataSuccessExecution", .str "all")]),
        ("active", .bool false)]) ∧
    toolCallResponse "workflow_create" workflowCreateEmptyNodesArgs testEnvCreateProbe =
      createErrorResponse ("Tool execution failed: " ++ "Network Error: create reached") none :=
  ⟨rfl, rfl⟩

/-! ## C5 — validation failures are field-qualified and complete -/

/-- Membership of a declared field (key and schema) in an object shape. -/
def fieldsHave : ZodFields → String → Zod → Prop
  | .nil, _, _ => False
  | .cons k' s' rest, k, s => (k' = k ∧ s' = s) ∨ fieldsHave rest k s

theorem parseZodFields_missing (flds : ZodFields) (k : String) (ksch : Zod)
    (input : List (String × JsonValue)) (hmem : fieldsHave flds k ksch)
    (hlook : lookupField input k = none)
    (hreq : zodParse ksch none = .error [⟨[], "Required"⟩]) :
    (⟨[k], "Required"⟩ : ZodIssue) ∈ (parseZodFields flds input).1 :=
  match flds, hmem with
  | .nil, hmem => hmem.elim
  | .cons k' s' rest, hmem => by
    rcases hrest : parseZodFields rest input with ⟨restIss, restOut⟩
    rcases hmem with ⟨hk, hs⟩ | hmem
    · subst hk; subst hs
      simp [parseZodFields, hlook, hreq, hrest, prefixPath]
    · have hrec := parseZodFields_missing rest k ksch input hmem hlook hreq
      rw [hrest] at hrec
      cases hr : zodParse s' (lookupField input k') with
      | error iss =>
        simp only [parseZodFields, hr, hrest]
        exact List.mem_append.mpr (Or.inr hrec)
      | ok o =>
        cases o <;> simp only [parseZodFields, hr, hrest] <;> exact hrec

theorem zObject_error_of_missing_required (flds : ZodFields) (k : String) (ksch : Zod)
    (input : List (String × JsonValue)) (hmem : fieldsHave flds k ksch)
    (hlook : lookupField input k = none)
    (hreq : zodParse ksch none = .error [⟨[], "Required"⟩]) :
    ∃ issues, zodParse (.zObject flds) (some (.obj input)) = .error issues ∧
      (⟨[k], "Required"⟩ : ZodIssue) ∈ issues := by
  have hm := parseZodFields_missing flds k ksch input hmem hlook hreq
  rcases hP : parseZodFields flds input with ⟨iss, out⟩
  rw [hP] at hm
  refine ⟨iss, ?_, hm⟩
  have hne : iss.isEmpty = false := by
    cases iss with
    | nil => cases hm
    | cons _ _ => rfl
  simp [zodParse, hP, hne]

theorem validateAndTransformSrc_error (schema : Zod) (v : JsonValue) (issues : List ZodIssue)
    (h : zodParse schema (some v) = .error issues) :
    validateAndTransformSrc schema v =
      .error ("Validation failed: " ++ joinWith ", " (issues.map formatIssue)) := by
  simp [validateAndTransformSrc, h]

/-- C5: whenever validation fails, the thrown message joins *every*
violated constraint, each rendered with its field path
(`<path>: <message>`); in particular, an object argument missing a
required field fails with a message containing `<field>: Required`. -/
theorem validation_failure_lists_every_issue :
    (∀ (schema : Zod) (v : JsonValue) (issues : List ZodIssue),
       zodParse schema (some v) = .error issues →
       validateAndTransformSrc schema v =
         .error ("Validation failed: " ++ joinWith ", " (issues.map formatIssue)) ∧
       ∀ i ∈ issues, ∃ pre post,
         "Validation failed: " ++ joinWith ", " (issues.map formatIssue) =
           pre ++ (formatIssue i ++ post)) ∧
    (∀ (flds : ZodFields) (k : String) (ksch : Zod) (input : List (String × JsonValue)),
       fieldsHave flds k ksch → lookupField input k = none →
       zodParse ksch none = .error [⟨[], "Required"⟩] →
       ∃ msg, validateAndTransformSrc (.zObject flds) (.obj input) = .error msg ∧
         ∃ pre post, msg = pre ++ ((k ++ ": Required") ++ post)) := by
  constructor
  · intro schema v issues h
    refine ⟨validateAndTransformSrc_error _ _ _ h, ?_⟩
    intro i hi
    obtain ⟨pre, post, hj⟩ :=
      joinWith_mem_split ", " (issues.map formatIssue) (formatIssue i) (List.mem_map_of_mem _ hi)
    exact ⟨"Validation failed: " ++ pre, post, by rw [hj, ← String.append_assoc]⟩
  · intro flds k ksch input hmem hlook hreq
    obtain ⟨issues, hz, hm⟩ := zObject_error_of_missing_required flds k ksch input hmem hlook hreq
    refine ⟨_, validateAndTransformSrc_error _ _ _ hz, ?_⟩
    obtain ⟨pre, post, hj⟩ := joinWith_mem_split ", " (issues.map formatIssue)
      (formatIssue ⟨[k], "Required"⟩) (List.mem_map_of_mem _ hm)
    refine ⟨"Validation failed: " ++ pre, post, ?_⟩
    have hfi : formatIssue ⟨[k], "Required"⟩ = k ++ ": Required" := by
      show joinWith "." [k] ++ ": " ++ "Required" = k ++ ": Required"
      show k ++ ": " ++ "Required" = k ++ ": Required"
      rw [String.append_assoc]
      rfl
    rw [hj, hfi, ← String.append_assoc]

/-- Witness for C5: `workflow_get`-style arguments missing the required
`id` field fail with a message containing `id: Required`. -/
theorem validation_failure_lists_every_issue_witness :
    ∃ msg, validateAndTransformSrc (.zObject (zfields [("id", workflowIdSchema)])) (.obj []) =
        .error msg ∧
      ∃ pre post, msg = pre ++ (("id" ++ ": Required") ++ post) :=
  validation_failure_lists_every_issue.2 (zfields [("id", workflowIdSchema)]) "id"
    workflowIdSchema [] (Or.inl ⟨rfl, rfl⟩) rfl rfl

/-! ## C1 — every invocation resolves to exactly one uniform response -/

theorem registryHandlers_ok_uniform :
    ∀ hdl ∈ handlerRegistry.map Prod.snd, ∀ (args : JsonValue) (env : RemoteEnv) (r : Response),
      hdl args env = Except.ok r → isUniformResponse r := by
  intro hdl hmem
  simp only [handlerRegistry, List.map_cons, List.map_nil, List.mem_cons, List.not_mem_nil,
    or_false] at hmem
  rcases hmem with rfl | rfl | rfl | rfl | rfl | rfl | rfl | rfl | rfl | rfl | rfl | rfl | rfl | rfl | rfl | rfl | rfl | rfl | rfl | rfl | rfl | rfl | rfl | rfl | rfl | rfl | rfl | rfl | rfl | rfl <;>
    (intro args env r h
     simp only [handleWorkflowList, handleWorkflowGet, handleWorkflowCreate, handleWorkflowUpdate, handleWorkflowDelete, handleWorkflowActivate, handleWorkflowDeactivate, handleWorkflowTransfer, handleExecutionList, handleExecutionGet, handleExecutionDelete, handleTagList, handleTagCreate, handleTagUpdate, handleTagDelete, handleWorkflowTagsGet, handleWorkflowTagsUpdate, handleVariableList, handleVariableCreate, handleVariableUpdate, handleVariableDelete, handleProjectList, handleProjectCreate, handleProjectUpdate, handleProjectDelete, handleCredentialCreate, handleCredentialDelete, handleCredentialSchemaGet, handleCredentialTransfer, handleAuditGenerate] at h
     repeat' (split at h)
     all_goals
       first
         | exact Except.noConfusion h
         | (injection h with h2; subst h2; exact ⟨_, rfl⟩))

theorem dispatchTool_ok_uniform (name : String) (args : JsonValue) (env : RemoteEnv)
    (r : Response) (h : dispatchTool name args env = .ok r) : isUniformResponse r := by
  unfold dispatchTool at h
  cases hl : lookupStr handlerRegistry name with
  | none =>
    rw [hl] at h
    injection h with h2
    subst h2
    exact ⟨_, rfl⟩
  | some hdl =>
    rw [hl] at h
    exact registryHandlers_ok_uniform hdl (lookupStr_some_mem hl) args env r h

theorem handleNodeTypeInfo_uniform (nt : Option String) :
    isUniformResponse (handleNodeTypeInfo nt) := by
  unfold handleNodeTypeInfo
  dsimp only
  split <;> exact ⟨_, rfl⟩

theorem handleWorkflowExamplesSearch_uniform (st : ExamplesFS) (a : SearchArgs) :
    isUniformResponse (handleWorkflowExamplesSearch st a) := by
  unfold handleWorkflowExamplesSearch
  split <;> exact ⟨_, rfl⟩

theorem srcDispatch_ok_uniform (name : String) (args : JsonValue) (st : ExamplesFS)
    (r : Response) (h : srcDispatch name args st = .ok r) : isUniformResponse r := by
  unfold srcDispatch at h
  repeat' (split at h)
  all_goals
    first
      | exact Except.noConfusion h
      | (injection h with h2; subst h2;
         first
           | exact ⟨_, rfl⟩
           | exact handleNodeTypeInfo_uniform _
           | exact handleWorkflowExamplesSearch_uniform _ _)

/-- C1: for every operation name, argument object, remote behavior and
examples-directory state, both dispatchers resolve to exactly one uniform
`{content:[{type:"text", text}]}` response — every error raised by
validation, the remote client or a handler is caught at the
`CallToolRequestSchema` boundary and converted into an error response,
and the catch converts a thrown error `e` into exactly
`createErrorResponse ("Tool execution failed: " ++ e)`. -/
theorem dispatcher_uniform_response (name : String) (args : JsonValue) (env : RemoteEnv)
    (st : ExamplesFS) :
    isUniformResponse (toolCallResponse name args env) ∧
    isUniformResponse (srcToolCall name args st) ∧
    (∀ e, dispatchTool name args env = .error e →
       toolCallResponse name args env =
         createErrorResponse ("Tool execution failed: " ++ e) none) := by
  refine ⟨?_, ?_, ?_⟩
  · unfold toolCallResponse
    cases h : dispatchTool name args env with
    | ok r => exact dispatchTool_ok_uniform name args env r h
    | error e => exact ⟨_, rfl⟩
  · unfold srcToolCall
    cases h : srcDispatch name args st with
    | ok r => exact srcDispatch_ok_uniform name args st r h
    | error e => exact ⟨_, rfl⟩
  · intro e he
    unfold toolCallResponse
    rw [he]

/-- Witness for C1's catch conversion: an out-of-range `limit` makes the
workflow-list handler throw a validation error, and the boundary converts
it into the uniform failure response. -/
theorem dispatcher_uniform_response_witness :
    toolCallResponse "workflow_list" (.obj [("limit", .num 0)]) testEnv =
      createErrorResponse
        ("Tool execution failed: " ++
         "Validation error: limit: Number must be greater than or equal to 1") none :=
  (dispatcher_uniform_response "workflow_list" (.obj [("limit", .num 0)]) testEnv testFS).2.2
    "Validation error: limit: Number must be greater than or equal to 1" rfl

/-! ## C6 — unknown operation names -/

/-- C6: an operation name registered in neither dispatcher yields the
uniform failure `Unknown tool: <name>` from the compiled server (returned,
never thrown), and a failure text containing the name from the TypeScript
server; no exception escapes in either case. -/
theorem unknown_tool_failure (name : String) (args : JsonValue) (env : RemoteEnv)
    (st : ExamplesFS) (hdist : name ∉ distToolNames) (hsrc : name ∉ srcToolNames) :
    toolCallResponse name args env = createErrorResponse ("Unknown tool: " ++ name) none ∧
    (∃ pre post, (toolCallResponse name args env).content =
       [ContentItem.mk "text" (pre ++ (name ++ post))]) ∧
    (∃ pre post, (srcToolCall name args st).content =
       [ContentItem.mk "text" (pre ++ (name ++ post))]) := by
  have hnone : lookupStr handlerRegistry name = none := lookupStr_eq_none_of_not_mem hdist
  have h1 : toolCallResponse name args env =
      createErrorResponse ("Unknown tool: " ++ name) none := by
    unfold toolCallResponse dispatchTool
    rw [hnone]
  refine ⟨h1, ⟨"❌ Error: " ++ "Unknown tool: ", "", ?_⟩, ?_⟩
  · rw [h1]
    show [ContentItem.mk "text" ("❌ Error: " ++ ("Unknown tool: " ++ name) ++ "")] = _
    simp only [String.append_empty, String.append_assoc]
  · have h5 : srcToolCall name args st = createErrorResponse
        ("Tool execution failed: " ++
         ("Tool '" ++ name ++ "' is not implemented in this version. Please use the compiled server."))
        none := by
      unfold srcToolCall srcDispatch
      simp only [srcToolNames, List.mem_cons, List.not_mem_nil, or_false, not_or] at hsrc
      obtain ⟨n1, n2, n3, n4, n5⟩ := hsrc
      rw [if_neg n1, if_neg n2, if_neg n3, if_neg n4, if_neg n5]
    refine ⟨"❌ Error: " ++ ("Tool execution failed: " ++ "Tool '"),
            "' is not implemented in this version. Please use the compiled server.", ?_⟩
    rw [h5]
    show [ContentItem.mk "text" ("❌ Error: " ++
      ("Tool execution failed: " ++
        ("Tool '" ++ name ++ "' is not implemented in this version. Please use the compiled server.")) ++ "")] = _
    simp only [String.append_empty, String.append_assoc]

/-- Witness for C6 at a concrete unregistered name. -/
theorem unknown_tool_failure_witness :
    toolCallResponse "bogus_tool" (.obj []) testEnv =
      createErrorResponse ("Unknown tool: " ++ "bogus_tool") none :=
  (unknown_tool_failure "bogus_tool" (.obj []) testEnv testFS (by decide) (by decide)).1

/-! ## C9 — unknown node type yields an informational listing, not an error -/

/-- C9: `node_type_info` with a node type outside the built-in catalog
returns a success-shaped single-text payload whose text is the fixed
"not found" message enumerating every available built-in node type (the
`- <type>` list joined over `coreNodeKeys`), and the response is not an
error response for any message/details. -/
theorem nodeTypeInfo_unknown_type (nt : String) (h : nt ∉ coreNodeKeys) :
    handleNodeTypeInfo (some nt) = ⟨[⟨"text", nodeTypeNotFoundText nt⟩]⟩ ∧
    nodeTypeNotFoundText nt =
      "Node type \"" ++ nt ++ "\" not found in built-in nodes. \n\nAvailable node types:\n" ++
        joinWith "\n" (coreNodeKeys.map (fun t => "- " ++ t)) ++
        "\n\nYou can also use node_types_list to browse nodes by category." ∧
    ∀ m d, handleNodeTypeInfo (some nt) ≠ createErrorResponse m d := by
  have hlook : lookupStr CORE_NODES (showOptStr (some nt)) = none :=
    lookupStr_eq_none_of_not_mem h
  have h1 : handleNodeTypeInfo (some nt) = ⟨[⟨"text", nodeTypeNotFoundText nt⟩]⟩ := by
    unfold handleNodeTypeInfo
    dsimp only
    rw [hlook]
    rfl
  refine ⟨h1, rfl, ?_⟩
  intro m d heq
  rw [h1] at heq
  have hc := congrArg Response.content heq
  simp only [createErrorResponse] at hc
  injection hc with hhead _
  injection hhead with _ htext
  have hN : (nodeTypeNotFoundText nt).data.head? = some 'N' := by
    show (("Node type \"" ++ nt ++ "\" not found in built-in nodes. \n\nAvailable node types:\n" ++
      joinWith "\n" (coreNodeKeys.map (fun t => "- " ++ t)) ++
      "\n\nYou can also use node_types_list to browse nodes by category.").data).head? = some 'N'
    simp only [String.data_append]
    rfl
  have hX : ∀ (y z : String), (("❌ Error: " ++ y ++ z).data).head? = some '❌' := by
    intro y z
    simp only [String.data_append]
    rfl
  rw [htext] at hN
  have := (hX m _).symm.trans hN
  exact absurd this (by decide)

/-- Witness for C9 at a concrete non-catalog node type. -/
theorem nodeTypeInfo_unknown_type_witness :
    handleNodeTypeInfo (some "custom.node") =
      ⟨[⟨"text", nodeTypeNotFoundText "custom.node"⟩]⟩ :=
  (nodeTypeInfo_unknown_type "custom.node" (by decide)).1

/-! ## C10 — symmetric substring node-type matching -/

/-- C10: the example-search node-type criterion is symmetric substring
containment — a requested type matches a workflow node when either string
contains the other — both in the match-reason computation
(`foundNodeTypes`) and in the relevant-node excerpt filter; consequently
the short request "n8n" matches every built-in node type. -/
theorem nodeType_match_symmetric :
    (∀ (nts wnts : List String) (nt : String),
       nt ∈ foundNodeTypes nts wnts ↔
         nt ∈ nts ∧ ∃ wnt ∈ wnts, (jsIncludes wnt nt = true ∨ jsIncludes nt wnt = true)) ∧
    (∀ (nts : List String) (n : ExNode),
       (nts.any (fun nt => jsIncludes n.type nt || jsIncludes nt n.type) = true) ↔
         ∃ nt ∈ nts, (jsIncludes n.type nt = true ∨ jsIncludes nt n.type = true)) ∧
    (∀ k ∈ coreNodeKeys, nodeTypeMatches "n8n" k = true) := by
  refine ⟨?_, ?_, ?_⟩
  · intro nts wnts nt
    simp [foundNodeTypes, nodeTypeMatches, List.mem_filter, List.any_eq_true, Bool.or_eq_true]
  · intro nts n
    simp [List.any_eq_true, Bool.or_eq_true]
  · decide

/-- Witness for C10: "n8n" matches the OpenAI node type. -/
theorem nodeType_match_symmetric_witness :
    nodeTypeMatches "n8n" "n8n-nodes-base.openai" = true :=
  nodeType_match_symmetric.2.2 "n8n-nodes-base.openai" (by decide)

/-! ## C7 — ranking, truncation and skip-on-parse-failure of the example search -/

/-- Six valid example files with no search criteria: every file is a
general match. -/
def searchFS6 : ExamplesFS :=
  ⟨true,
   [("a.json", some ⟨some "W1", some [], some []⟩),
    ("b.json", some ⟨some "W2", some [], some []⟩),
    ("c.json", some ⟨some "W3", some [], some []⟩),
    ("d.json", some ⟨some "W4", some [], some []⟩),
    ("e.json", some ⟨some "W5", some [], some []⟩),
    ("f.json", some ⟨some "W6", some [], some []⟩)]⟩

/-- `maxExamples = 6` supplied by the caller. -/
def searchArgs6 : SearchArgs := ⟨[], [], some 6, false⟩

/-- Counterexample to C7's cap: with `maxExamples = 6` and six matching
files, six examples are returned — the handler enforces no cap at 5 (the
advertised schema maximum is not enforced server-side). -/
theorem examples_search_no_cap_at_5 :
    ¬ ((workflowExamplesSearchResult searchFS6 searchArgs6).returnedExamples ≤ 5) := by
  decide

/-- C7 as amended: the search sorts its matches by number of match
reasons (satisfied criteria) in descending order, returns at most
`maxExamples` matches with `maxExamples` defaulting to 2 when omitted
(no cap at 5 is applied), and a file whose content fails to read or
parse contributes nothing — the remaining files are processed as if it
were absent. -/
theorem examples_search_ranked_limited_skips (st : ExamplesFS) (args : SearchArgs) :
    List.Sorted (fun a b : WorkflowInfo => b.matchReasons.length ≤ a.matchReasons.length)
      (workflowExamplesSearchResult st args).examples ∧
    (workflowExamplesSearchResult st args).examples.length ≤ args.maxExamples.getD 2 ∧
    collectMatches args (searchFileListing st) =
      collectMatches args ((searchFileListing st).filter (fun f => f.2.isSome)) := by
  refine ⟨?_, ?_, ?_⟩
  · have hs : List.Sorted (fun a b : WorkflowInfo => b.matchReasons.length ≤ a.matchReasons.length)
        (sortByRelevance (collectMatches args (searchFileListing st))) := by
      haveI : IsTotal WorkflowInfo
          (fun a b => b.matchReasons.length ≤ a.matchReasons.length) :=
        ⟨fun a b => (Nat.le_total b.matchReasons.length a.matchReasons.length).elim Or.inl Or.inr⟩
      haveI : IsTrans WorkflowInfo
          (fun a b => b.matchReasons.length ≤ a.matchReasons.length) :=
        ⟨fun _ _ _ h1 h2 => Nat.le_trans h2 h1⟩
      exact List.sorted_insertionSort _ _
    exact List.Pairwise.sublist (List.take_sublist _ _) hs
  · exact List.length_take_le _ _
  · induction searchFileListing st with
    | nil => rfl
    | cons f rest ih =>
      cases hf : f.2 with
      | none =>
        have h1 : searchOneFile args f = none := by
          unfold searchOneFile
          rw [hf]
        have h2 : f.2.isSome = false := by rw [hf]; rfl
        simp [collectMatches, List.filterMap_cons, List.filter_cons, h1, h2] at ih ⊢
        exact ih
      | some wf =>
        have h2 : f.2.isSome = true := by rw [hf]; rfl
        simp only [collectMatches, List.filterMap_cons, List.filter_cons, h2, if_pos] at ih ⊢
        cases searchOneFile args f <;> simp only [List.filterMap_cons] <;> rw [ih]
